import Mathlib

/-!
# Block editor (`script.js`): composition graph, serializer and code generator

A shallow embedding of the block registry of `script.js` and of the functions that
mutate it (`createBlock`, `detachFromParent`, `removeBlock`, `findSnapTarget`,
`snapToInput`, the drag handlers, `serializeWorkspace`, `loadWorkspaceFromStorage`)
and of the template driven generator `generateCodeFromBlock`.

Conventions of the embedding

* JavaScript strings are Lean strings; the text algorithms run over `List Char`.
  The regular expressions of the source only use ASCII literals and the classes
  `\w`, `\s`, `[^"]`, for which code points and UTF-16 code units agree.
* Element objects live in a heap that only grows; an element reference (an entry of
  `blocks` or of `nestedBlocks`, `dragBlock`) is the index of the element in the heap,
  so an element removed from `blocks` is still there for whoever holds a reference.
  The `data-id` of an element is ordinary data, looked up with `blocks.find`.
* A plain object used as a map is the list of its own properties. A read that falls
  through to `Object.prototype` is spelled out where the source makes one on a key it
  does not control: the function table, `idToEl` and `el.inputs` in the loader. The
  loader can push such an inherited member on `nestedBlocks`; the heap holds it as an
  object that is not an element, on which `nb.dataset.id` and a generation throw.
  The layout call `updateContainerHeight` would throw on it too: `detachFromParent`,
  `removeBlock` and the drag handlers are written for registries whose `nestedBlocks`
  hold elements only.
* The object `g.inputs` of a block is taken to keep the prototype `Object.prototype`:
  a label with the part `%__proto__` would replace it with a slot record.
* Transform attributes (positions) are layout only and are not represented.
* Pixel geometry (`getBoundingClientRect`, `getCTM`, `getBBox`) is an oracle passed
  to the functions that query it.
* The position of a block element in the document tree is kept (`domParent`),
  because `appendChild` throws when the node to insert contains the target.
* A handler that throws keeps the mutations made before the throw.
-/

namespace BlockEditor

/-! ## JavaScript text primitives -/

/-- The regex class `\w`: ASCII letters, digits, underscore. -/
def isWordChar (c : Char) : Bool :=
  (97 ≤ c.toNat && c.toNat ≤ 122) || (65 ≤ c.toNat && c.toNat ≤ 90) ||
  (48 ≤ c.toNat && c.toNat ≤ 57) || c.toNat == 95

/-- The regex class `\s`, which is also the set removed by `String.prototype.trim`
(ECMAScript WhiteSpace and LineTerminator). -/
def isJsSpace (c : Char) : Bool :=
  let n := c.toNat
  (9 ≤ n && n ≤ 13) || n == 32 || n == 160 || n == 5760 || (8192 ≤ n && n ≤ 8202) ||
  n == 8232 || n == 8233 || n == 8239 || n == 8287 || n == 12288 || n == 65279

/-- The double quote character. -/
def dquote : Char := Char.ofNat 34

/-- Truthiness of a JavaScript string: every string but the empty one. -/
def truthy (s : String) : Bool := s.data.length != 0

/-- Truthiness of a value that is a string, `null` or `undefined`. -/
def truthyOpt : Option String → Bool
  | none => false
  | some s => truthy s

/-- The operator `a || b` on a string-or-undefined left operand and a string right operand. -/
def jsOr (a : Option String) (b : String) : String :=
  match a with
  | some s => if truthy s then s else b
  | none => b

/-- The operator `a || b` when both operands are a string or undefined. -/
def jsOrOpt (a b : Option String) : Option String :=
  if truthyOpt a then a else b

/-- Own-property lookup `o[k]` in an object whose own properties are listed in
enumeration order. -/
def lookup {α : Type} (o : List (String × α)) (k : String) : Option α :=
  match o with
  | [] => none
  | (k1, v) :: rest => if k1 = k then some v else lookup rest k

/-- Whether `k` is an integer index key (a canonical numeric string below `2^32 - 1`):
such keys are enumerated first, in ascending numeric order. -/
def isArrayIndex (k : String) : Bool :=
  match k.data with
  | [] => false
  | [c] => 48 ≤ c.toNat && c.toNat ≤ 57
  | c :: cs => 49 ≤ c.toNat && c.toNat ≤ 57 && cs.all (fun d => 48 ≤ d.toNat && d.toNat ≤ 57)
      && (c :: cs).foldl (fun acc d => acc * 10 + (d.toNat - 48)) 0 < 4294967295

/-- Numeric value of a decimal key. -/
def indexValue (k : String) : Nat :=
  k.data.foldl (fun acc d => acc * 10 + (d.toNat - 48)) 0

/-- Insert a new integer index key: before the first own key that is not an index or
is a larger index. -/
def insertIndexKey {α : Type} (k : String) (v : α) : List (String × α) → List (String × α)
  | [] => [(k, v)]
  | (k1, v1) :: rest =>
    if isArrayIndex k1 && indexValue k1 < indexValue k then (k1, v1) :: insertIndexKey k v rest
    else (k, v) :: (k1, v1) :: rest

/-- Replace the value of an own key in place. -/
def replaceKey {α : Type} (k : String) (v : α) : List (String × α) → List (String × α)
  | [] => []
  | (k1, v1) :: rest => if k1 = k then (k1, v) :: rest else (k1, v1) :: replaceKey k v rest

/-- The assignment `o[k] = v` on a plain object. The key `__proto__` reaches the
setter of `Object.prototype` and creates no own property. -/
def jsSet {α : Type} (o : List (String × α)) (k : String) (v : α) : List (String × α) :=
  if k = "__proto__" then o
  else if (lookup o k).isSome then replaceKey k v o
  else if isArrayIndex k then insertIndexKey k v o
  else o ++ [(k, v)]

/-- The property names every plain object inherits from `Object.prototype`; each
holds a truthy value that is not a string. -/
def objectPrototypeKeys : List String :=
  ["constructor", "__defineGetter__", "__defineSetter__", "hasOwnProperty",
   "__lookupGetter__", "__lookupSetter__", "isPrototypeOf", "propertyIsEnumerable",
   "toString", "valueOf", "__proto__", "toLocaleString"]

/-- `String.prototype.trim`, on the left. -/
def trimLeft : List Char → List Char
  | [] => []
  | c :: cs => if isJsSpace c then trimLeft cs else c :: cs

/-- `String.prototype.trim`. -/
def jsTrim (s : String) : String :=
  ⟨(trimLeft (trimLeft s.data).reverse).reverse⟩

/-- `GetSubstitution` for a match without capture groups: in the replacement text
`$$` is a dollar, `$&` the matched text, `$` followed by a backtick the text before
the match and `$` followed by an apostrophe the text after it; everything else is
copied. -/
def getSubstitution (matched before after : List Char) : List Char → List Char
  | [] => []
  | [c] => [c]
  | c :: d :: rest =>
    if c.toNat == 36 then
      if d.toNat == 36 then '$' :: getSubstitution matched before after rest
      else if d.toNat == 38 then matched ++ getSubstitution matched before after rest
      else if d.toNat == 96 then before ++ getSubstitution matched before after rest
      else if d.toNat == 39 then after ++ getSubstitution matched before after rest
      else c :: getSubstitution matched before after (d :: rest)
    else c :: getSubstitution matched before after (d :: rest)

/-- A left-to-right global replacement. `m revBefore rest` says whether a match
starts at the current position (`revBefore` is the text before it, reversed) and
gives the replacement and the length of the match; matches are never empty. -/
def scanReplace (m : List Char → List Char → Option (List Char × Nat)) :
    List Char → Nat → List Char → List Char
  | _, _, [] => []
  | revBefore, skip + 1, c :: cs => scanReplace m (c :: revBefore) skip cs
  | revBefore, 0, c :: cs =>
    match m revBefore (c :: cs) with
    | some (rep, len) => rep ++ scanReplace m (c :: revBefore) (len - 1) cs
    | none => c :: scanReplace m (c :: revBefore) 0 cs

/-- The first of the alternatives `alts` that is a prefix of `s`. -/
def firstAlt (alts : List (List Char)) (s : List Char) : Option (List Char) :=
  match alts with
  | [] => none
  | a :: rest => if a.isPrefixOf s then some a else firstAlt rest s

/-- Matcher of a literal alternation replaced by a replacement text. -/
def literalMatcher (alts : List (List Char)) (replacement : List Char)
    (revBefore rest : List Char) : Option (List Char × Nat) :=
  match firstAlt alts rest with
  | some a =>
    some (getSubstitution a revBefore.reverse (rest.drop a.length) replacement, a.length)
  | none => none

/-- The call `template.replaceAll("%" + k, value)`. -/
def replaceAll (template k value : String) : String :=
  ⟨scanReplace (literalMatcher [('%' :: k.data)] value.data) [] 0 template.data⟩

/-- The call `template.replace(/%body|%then|%else/g, value)`. -/
def replaceBodyThenElse (template value : String) : String :=
  ⟨scanReplace (literalMatcher ["%body".data, "%then".data, "%else".data] value.data)
    [] 0 template.data⟩

/-- The match of `/^(\w+)\s*=\s*%body$/`: the captured name. The classes `\w`,
`\s` and the literals are pairwise disjoint, so the match is unique. -/
def funcDefMatch (template : String) : Option String :=
  let name := template.data.takeWhile isWordChar
  let r1 := template.data.dropWhile isWordChar
  if name.isEmpty then none
  else
    match trimLeft r1 with
    | [] => none
    | c :: r2 =>
      if c.toNat == 61 && trimLeft r2 == "%body".data then some ⟨name⟩ else none

/-- Matcher of `/=(\s*)"([^"]+)"/`, replaced by `=`, the spaces and the unquoted text. -/
def quotedValueMatcher (_revBefore rest : List Char) : Option (List Char × Nat) :=
  match rest with
  | [] => none
  | c :: r0 =>
    if c.toNat == 61 then
      let ws := r0.takeWhile isJsSpace
      match r0.dropWhile isJsSpace with
      | [] => none
      | q :: r2 =>
        let body := r2.takeWhile (fun d => d != dquote)
        if q == dquote && !body.isEmpty then
          match r2.dropWhile (fun d => d != dquote) with
          | [] => none
          | _ :: _ => some (c :: (ws ++ body), 1 + ws.length + 1 + body.length + 1)
        else none
    else none

/-- The keywords of the first cleanup expression, in the order of its alternation;
none is a prefix of another. -/
def declKeywords : List (List Char) :=
  ["local".data, "var".data, "let".data, "const".data, "int".data, "float".data,
   "string".data, "auto".data, "char".data, "double".data, "bool".data, "def".data,
   "function".data]

/-- Matcher of `/(\b(?:local|var|...|function)\s+)"([^"]+)"(\s*=)/`, replaced by the
three groups without the quotes. -/
def quotedDeclMatcher (revBefore rest : List Char) : Option (List Char × Nat) :=
  let boundary := match revBefore with
    | [] => true
    | p :: _ => !isWordChar p
  if boundary then
    match firstAlt declKeywords rest with
    | none => none
    | some kw =>
      let r0 := rest.drop kw.length
      let ws := r0.takeWhile isJsSpace
      match r0.dropWhile isJsSpace with
      | [] => none
      | q :: r2 =>
        let body := r2.takeWhile (fun d => d != dquote)
        if q == dquote && !ws.isEmpty && !body.isEmpty then
          match r2.dropWhile (fun d => d != dquote) with
          | [] => none
          | _ :: r4 =>
            let ws2 := r4.takeWhile isJsSpace
            match r4.dropWhile isJsSpace with
            | [] => none
            | e :: _ =>
              if e.toNat == 61 then
                some (kw ++ ws ++ body ++ ws2 ++ [e],
                  kw.length + ws.length + 1 + body.length + 1 + ws2.length + 1)
              else none
        else none
  else none

/-- The two cleanup replacements at the end of `generateCodeFromBlock`. -/
def cleanupQuotes (template : String) : String :=
  ⟨scanReplace quotedValueMatcher [] 0 (scanReplace quotedDeclMatcher [] 0 template.data)⟩

/-- The names of `/%(body|then|else|area|content|inner)\b/`, in order. -/
def containerVarNames : List (List Char) :=
  ["body".data, "then".data, "else".data, "area".data, "content".data, "inner".data]

/-- First match of `/%(body|then|else|area|content|inner)\b/` in a text: group 1. -/
def containerVarMatch : List Char → Option (List Char)
  | [] => none
  | c :: cs =>
    let here : Option (List Char) :=
      if c.toNat == 37 then
        match firstAlt containerVarNames cs with
        | some n =>
          match cs.drop n.length with
          | [] => some n
          | d :: _ => if isWordChar d then none else some n
        | none => none
      else none
    match here with
    | some n => some n
    | none => containerVarMatch cs

/-- The call `label.split(/(%\w+)/g)`: the texts between the matches and the matches
themselves, empty texts included. `cur` is the piece being read (reversed) and
`inSep` says that it is a match of `%\w+`. -/
def splitLabel : List Char → List Char → Bool → List String
  | [], cur, _ => [⟨cur.reverse⟩]
  | c :: cs, cur, inSep =>
    let startsSep : Bool := c.toNat == 37 && (match cs with
      | [] => false
      | d :: _ => isWordChar d)
    if inSep && isWordChar c then splitLabel cs (c :: cur) true
    else if startsSep then ⟨cur.reverse⟩ :: splitLabel cs [c] true
    else if inSep then ⟨cur.reverse⟩ :: splitLabel cs [c] false
    else splitLabel cs (c :: cur) false

/-- The function `parseLabel`: the split without its empty pieces. -/
def parseLabel (label : String) : List String :=
  (splitLabel label.data [] false).filter (fun s => s.data.length > 0)

/-! ## Data model -/

/-- A palette definition `{label, type, color, templates, containerVar}`. A missing
`templates` is the empty object, a missing `containerVar` is `none`. -/
structure BlockDef where
  label : String
  type : String
  color : String
  templates : List (String × String)
  containerVar : Option String
deriving DecidableEq, Repr

/-- An entry `g.inputs[vn] = { fo, input, childId }`: the text of the `input`
element and the id of the block sitting in the slot. -/
structure InputInfo where
  value : String
  childId : Option String
deriving DecidableEq, Repr

/-- An element reference: the index of the element in the heap. -/
abbrev Ref := Nat

/-- Where a block element sits in the document: directly under the workspace, inside
another block (in its `containerGroup` or appended to the block itself), or nowhere. -/
inductive DomParent where
  | workspace
  | inside (parent : Ref)
  | detached
deriving DecidableEq, Repr

/-- A block element `g` with the fields the script keeps on it. `containerVar` is
`dataset.containerVar`; `hasContainerGroup` says that `g.containerGroup`,
`g.containerInnerRect` and `g.updateContainerHeight` exist. -/
structure Block where
  id : String
  type : String
  color : String
  label : String
  templates : List (String × String)
  containerVar : Option String
  hasContainerGroup : Bool
  inputs : List (String × InputInfo)
  nestedBlocks : List Ref
  parentBlock : Option String
  parentInput : Option (String × String)
  lastMouse : Option (Int × Int)
  domParent : DomParent
deriving DecidableEq, Repr

/-- One record of `blockStates`. -/
structure BlockState where
  id : String
  label : String
  type : String
  color : String
  templates : List (String × String)
  parentBlock : Option String
  parentInput : Option (String × String)
  inputState : List (String × InputInfo)
  nestedIds : List String
deriving DecidableEq, Repr

/-- An element of the array `blockDefs`: a definition, or `none` for a value whose
`label` is not a string (an import file can put one there), on which
`addPaletteEntry` throws. -/
abbrev DefEntry := Option BlockDef

/-- The saved object `{ blockDefs, blockStates }`; a part that is missing is `none`. -/
structure Payload where
  blockDefs : Option (List DefEntry)
  blockStates : Option (List BlockState)
deriving DecidableEq, Repr

/-- An object a reference can point to: a block element, or the member `name` that
plain objects inherit from `Object.prototype` (a function, or `Object.prototype`
itself for `__proto__`), which is no element. -/
inductive HeapObj where
  | element (b : Block)
  | inherited (name : String)
deriving DecidableEq, Repr

/-- The variables of the script: the element heap, the array `blocks`, `blockDefs`,
`functionBodies`, `dragBlock` and the item `svgBlockEditor.save` of `localStorage`. -/
structure State where
  heap : List HeapObj
  blocks : List Ref
  blockDefs : List DefEntry
  functionBodies : List (String × String)
  dragBlock : Option Ref
  storage : Option Payload
deriving DecidableEq, Repr

/-- The element at an index of the heap; `none` when there is no element there. -/
def elementAt : List HeapObj → Nat → Option Block
  | [], _ => none
  | HeapObj.element b :: _, 0 => some b
  | HeapObj.inherited _ :: _, 0 => none
  | _ :: rest, n + 1 => elementAt rest n

/-- The element behind a reference; `none` when the reference points to no element. -/
def State.get (st : State) (r : Ref) : Option Block := elementAt st.heap r

/-- Apply `f` to the element at index `r`. -/
def modifyAt (f : Block → Block) : List HeapObj → Nat → List HeapObj
  | [], _ => []
  | HeapObj.element b :: rest, 0 => HeapObj.element (f b) :: rest
  | HeapObj.inherited n :: rest, 0 => HeapObj.inherited n :: rest
  | o :: rest, n + 1 => o :: modifyAt f rest n

/-- The reference of the member `name` of `Object.prototype`, the same object at
every read. -/
def State.inheritedMember (st : State) (name : String) : State × Ref :=
  if st.heap.indexOf (HeapObj.inherited name) < st.heap.length then
    (st, st.heap.indexOf (HeapObj.inherited name))
  else ({ st with heap := st.heap ++ [HeapObj.inherited name] }, st.heap.length)

/-- Mutate the element behind a reference. -/
def State.modify (st : State) (r : Ref) (f : Block → Block) : State :=
  { st with heap := modifyAt f st.heap r }

/-- The call `blocks.find(b => b.dataset.id === id)`. -/
def State.findById (st : State) (id : String) : Option Ref :=
  st.blocks.find? (fun r =>
    match st.get r with
    | some b => b.id == id
    | none => false)

/-- The element with a given `data-id`, as `blocks.find` gives it. -/
def State.byId (st : State) (id : String) : Option Block :=
  match st.findById id with
  | some r => st.get r
  | none => none

/-- The state of the script before anything is created. -/
def State.empty : State :=
  { heap := [], blocks := [], blockDefs := [], functionBodies := [], dragBlock := none,
    storage := none }

/-! ## Block creation -/

/-- The text `Object.values(def.templates || {}).join(" ")`. -/
def joinTemplates : List (String × String) → List Char
  | [] => []
  | [(_, t)] => t.data
  | (_, t) :: rest => t.data ++ ' ' :: joinTemplates rest

/-- The inputs object built by the `parts.forEach` of `createBlock`: a part that
starts with `%` gives the key `part.slice(1)`. The result lists the own keys. The
part `%__proto__` creates no own key: the assignment replaces the prototype of
`g.inputs` by the slot record, whose members `fo`, `input` and `childId` a `for in`
loop then also visits; that prototype is not represented (labels are taken not to
hold this part). -/
def createInputs (parts : List String) : List (String × InputInfo) :=
  parts.foldl (fun o part =>
    match part.data with
    | c :: name => if c.toNat == 37 then jsSet o ⟨name⟩ { value := "", childId := none } else o
    | [] => o) []

/-- The function `createBlock(def, x, y, providedId)`; `uuid` is what
`crypto.randomUUID()` returns when it is called. -/
def createBlock (d : BlockDef) (providedId : Option String) (uuid : String) : Block :=
  let isContainer : Bool := d.type == "container" || d.type == "function"
  { id := if truthyOpt providedId then providedId.getD "" else uuid
    type := d.type
    color := d.color
    label := d.label
    templates := d.templates
    containerVar :=
      if isContainer then
        some (if truthyOpt d.containerVar then d.containerVar.getD ""
          else match containerVarMatch (joinTemplates d.templates) with
            | some n => ⟨n⟩
            | none => "body")
      else none
    hasContainerGroup := isContainer
    inputs := createInputs (parseLabel d.label)
    nestedBlocks := []
    parentBlock := none
    parentInput := none
    lastMouse := none
    domParent := DomParent.detached }

/-- A palette drag that ends inside the workspace (`paletteBlockDragStart`, the moves,
`paletteDragEnd`): the new element is appended to the workspace and pushed on `blocks`. -/
def paletteDrop (st : State) (d : BlockDef) (uuid : String) (mouse : Option (Int × Int)) : State :=
  let el := { createBlock d none uuid with domParent := DomParent.workspace, lastMouse := mouse }
  { st with heap := st.heap ++ [HeapObj.element el], blocks := st.blocks ++ [st.heap.length] }

/-- The function `defaultBlocks`. -/
def defaultBlocks : List BlockDef :=
  [ { label := "say %text", type := "command", color := "#4C97FF", containerVar := none,
      templates := [("javascript", "console.log(%text);"), ("python", "print(%text)"),
        ("c", "printf(\"%s\\n\", %text);")] },
    { label := "wait %seconds seconds", type := "command", color := "#FFAB19",
      containerVar := none,
      templates := [("javascript", "await new Promise(r => setTimeout(r, %seconds * 1000));"),
        ("python", "import time\ntime.sleep(%seconds)"), ("c", "sleep(%seconds);")] },
    { label := "repeat %times times", type := "container", color := "#FF6680",
      containerVar := none,
      templates := [("javascript", "for (let i = 0; i < %times; i++) \x7b\n%body\n\x7d"),
        ("python", "for i in range(%times):\n    %body"),
        ("c", "for (int i = 0; i < %times; i++) \x7b\n%body\n\x7d")] },
    { label := "if %condition then", type := "container", color := "#2EBA55",
      containerVar := none,
      templates := [("javascript", "if (%condition) \x7b\n%body\n\x7d"),
        ("python", "if %condition:\n    %body"), ("c", "if (%condition) \x7b\n%body\n\x7d")] },
    { label := "if %condition then else", type := "container", color := "#1E90FF",
      containerVar := none,
      templates := [("javascript", "if (%condition) \x7b\n%then\n\x7d else \x7b\n%else\n\x7d"),
        ("python", "if %condition:\n    %then\nelse:\n    %else"),
        ("c", "if (%condition) \x7b\n%then\n\x7d else \x7b\n%else\n\x7d")] },
    { label := "%a + %b", type := "reporter", color := "#FFCA28", containerVar := none,
      templates := [("javascript", "(%a + %b)"), ("python", "(%a + %b)"), ("c", "(%a + %b)")] },
    { label := "%a > %b", type := "boolean", color := "#F44336", containerVar := none,
      templates := [("javascript", "(%a > %b)"), ("python", "(%a > %b)"), ("c", "(%a > %b)")] } ]

/-! ## Composition graph -/

/-- Whether the element `a` is `p` or contains `p` in the document tree: the case in
which `p.appendChild(a)` throws a `HierarchyRequestError`. The walk up from `p` is
bounded by the size of the heap. -/
def domContains (st : State) (a : Ref) : Nat → Ref → Bool
  | 0, p => a == p
  | fuel + 1, p =>
    a == p ||
    match st.get p with
    | some b =>
      match b.domParent with
      | DomParent.inside q => domContains st a fuel q
      | _ => false
    | none => false

/-- Clear `childId` of the slot `vn`. -/
def clearSlot (vn : String) (inputs : List (String × InputInfo)) : List (String × InputInfo) :=
  match lookup inputs vn with
  | some info => replaceKey vn { info with childId := none } inputs
  | none => inputs

/-- The function `detachFromParent(block)`. -/
def detachFromParent (st : State) (r : Ref) : State :=
  match st.get r with
  | none => st
  | some block =>
    if !truthyOpt block.parentBlock && block.parentInput.isNone then st
    else
      let st1 : State :=
        match block.parentInput with
        | some (parentId, varname) =>
          let st0 := match st.findById parentId with
            | some p => st.modify p (fun b => { b with inputs := clearSlot varname b.inputs })
            | none => st
          st0.modify r (fun b => { b with parentInput := none, parentBlock := none })
        | none =>
          let st0 := match st.findById (block.parentBlock.getD "") with
            | some p => st.modify p (fun b => { b with nestedBlocks := b.nestedBlocks.erase r })
            | none => st
          st0.modify r (fun b => { b with parentBlock := none })
      st1.modify r (fun b => { b with domParent := DomParent.workspace })

/-- The body of the `blocks.forEach` of `removeBlock` for one element `b`: slots that
hold the id of the removed block are cleared and its first occurrence in
`nestedBlocks` is spliced out. -/
def scrubBlock (removed : Ref) (removedId : String) (b : Block) : Block :=
  { b with
    inputs := b.inputs.map (fun kv =>
      if kv.2.childId = some removedId then (kv.1, { kv.2 with childId := none }) else kv)
    nestedBlocks := b.nestedBlocks.erase removed }

/-- Apply `f` to every element that is in the array `blocks`. -/
def State.forEachBlock (st : State) (f : Block → Block) : State :=
  st.blocks.foldl (fun s r => s.modify r f) st

/-- The function `removeBlock(block)`. The recursion follows `nestedBlocks`; `none`
is the exhaustion of the call stack, which happens when the recursion does not end. -/
def removeBlock : Nat → State → Ref → Option State
  | 0, _, _ => none
  | fuel + 1, st, r =>
    match st.get r with
    | none => some st
    | some block =>
      match block.nestedBlocks.foldlM (fun s nb => removeBlock fuel s nb) st with
      | none => none
      | some st1 =>
        let st2 := st1.forEachBlock (scrubBlock r block.id)
        let st3 := st2.modify r (fun b => { b with domParent := DomParent.detached })
        some { st3 with blocks := st3.blocks.filter (fun x => x != r) }

/-- A rectangle in client coordinates. -/
structure Rect where
  left : Int
  right : Int
  top : Int
  bottom : Int
deriving DecidableEq, Repr

/-- What the rendering layer answers: the client rectangle of the `foreignObject` of
a slot, the client rectangle of the inner rectangle of a container, `getCTM()` (`e`,
`f`) and `getBBox()` (width, height) of a block, the rectangles of the workspace and
of the trash, and `svgPoint`. -/
structure Geometry where
  foRect : Ref → String → Rect
  innerRect : Ref → Rect
  ctm : Ref → Int × Int
  bbox : Ref → Int × Int
  workspaceRect : Rect
  trashRect : Rect
  svgPoint : Int × Int → Int × Int

/-- The object returned by `findSnapTarget`. -/
inductive SnapTarget where
  | input (parent : Ref) (varname : String)
  | container (parent : Ref)
  | below (target : Ref)
deriving DecidableEq, Repr

/-- The test `mx >= r.left - m && mx <= r.right + m && my >= r.top - m && my <= r.bottom + m`. -/
def Rect.containsWithin (r : Rect) (m : Int) (p : Int × Int) : Bool :=
  decide (p.1 ≥ r.left - m) && decide (p.1 ≤ r.right + m) &&
  decide (p.2 ≥ r.top - m) && decide (p.2 ≤ r.bottom + m)

/-- The first loop of `findSnapTarget`: the first slot, in the order of `blocks` and
of the keys of `inputs`, whose rectangle holds the last mouse position. -/
def findInputSnap (geo : Geometry) (st : State) (moving : Ref) (mouse : Int × Int) :
    List Ref → Option SnapTarget
  | [] => none
  | parent :: rest =>
    if parent == moving then findInputSnap geo st moving mouse rest
    else
      match st.get parent with
      | none => findInputSnap geo st moving mouse rest
      | some pb =>
        match pb.inputs.find? (fun kv => (geo.foRect parent kv.1).containsWithin 0 mouse) with
        | some kv => some (SnapTarget.input parent kv.1)
        | none => findInputSnap geo st moving mouse rest

/-- The second loop of `findSnapTarget`: the first block of type `container`, other
than the moving one, whose inner rectangle enlarged by 8 holds the last mouse position. -/
def findContainerSnap (geo : Geometry) (st : State) (moving : Ref) (mouse : Int × Int) :
    List Ref → Option SnapTarget
  | [] => none
  | candidate :: rest =>
    if candidate == moving then findContainerSnap geo st moving mouse rest
    else
      match st.get candidate with
      | none => findContainerSnap geo st moving mouse rest
      | some cb =>
        if cb.type == "container" && (geo.innerRect candidate).containsWithin 8 mouse then
          some (SnapTarget.container candidate)
        else findContainerSnap geo st moving mouse rest

/-- The third loop of `findSnapTarget`: the first command or container whose bottom
edge is near `mpos`. -/
def findBelowSnap (geo : Geometry) (st : State) (moving : Ref) (mpos : Int × Int) :
    List Ref → Option SnapTarget
  | [] => none
  | target :: rest =>
    match st.get target with
    | none => findBelowSnap geo st moving mpos rest
    | some tb =>
      if target != moving && (tb.type == "command" || tb.type == "container") then
        let left := (geo.ctm target).1
        let right := (geo.ctm target).1 + (geo.bbox target).1
        let bottom := (geo.ctm target).2 + (geo.bbox target).2
        if decide (mpos.1 > left - 10) && decide (mpos.1 < right + 10) &&
            decide (mpos.2 > bottom - 16) && decide (mpos.2 < bottom + 20) then
          some (SnapTarget.below target)
        else findBelowSnap geo st moving mpos rest
      else findBelowSnap geo st moving mpos rest

/-- The function `findSnapTarget(mpos, movingBlock)`. -/
def findSnapTarget (geo : Geometry) (st : State) (mpos : Int × Int) (moving : Ref) :
    Option SnapTarget :=
  match st.get moving with
  | none => none
  | some mb =>
    let inputSnap : Option SnapTarget :=
      if mb.type == "reporter" || mb.type == "boolean" then
        match mb.lastMouse with
        | some mouse => findInputSnap geo st moving mouse st.blocks
        | none => none
      else none
    match inputSnap with
    | some t => some t
    | none =>
      let containerSnap : Option SnapTarget :=
        match mb.lastMouse with
        | some mouse => findContainerSnap geo st moving mouse st.blocks
        | none => none
      match containerSnap with
      | some t => some t
      | none => findBelowSnap geo st moving mpos st.blocks

/-- The function `snapToInput(block, parent, varname)`. The result is `Except.error`
with the state reached when `parent.appendChild(block)` throws. -/
def snapToInput (st : State) (block parent : Ref) (varname : String) : Except State State :=
  let st1 := detachFromParent st block
  match st1.get parent with
  | none => Except.ok st1
  | some pb =>
    match lookup pb.inputs varname with
    | none => Except.ok st1
    | some info =>
      if domContains st1 block st1.heap.length parent then Except.error st1
      else
        let blockId := match st1.get block with
          | some b => b.id
          | none => ""
        let st2 := st1.modify block (fun b => { b with domParent := DomParent.inside parent })
        let st3 := st2.modify parent (fun b =>
          { b with inputs := replaceKey varname { info with childId := some blockId } b.inputs })
        Except.ok (st3.modify block (fun b =>
          { b with parentInput := some (pb.id, varname), parentBlock := some pb.id }))

/-! ## Drag session -/

/-- The handler `blockDragStart` on the element `target`. -/
def blockDragStart (st : State) (target : Ref) : State :=
  let st1 := { st with dragBlock := some target }
  let st2 :=
    match st1.get target with
    | some b =>
      if b.parentInput.isSome || truthyOpt b.parentBlock then detachFromParent st1 target
      else st1
    | none => st1
  st2.modify target (fun b => { b with domParent := DomParent.workspace })

/-- The handler `blockDragMove` with the pointer at `mouse` (client coordinates). -/
def blockDragMove (st : State) (mouse : Int × Int) : State :=
  match st.dragBlock with
  | none => st
  | some d => st.modify d (fun b => { b with lastMouse := some mouse })

/-- The function `isPointOutsideWorkspace`. -/
def isPointOutsideWorkspace (geo : Geometry) (p : Int × Int) : Bool :=
  decide (p.1 < geo.workspaceRect.left - 6) || decide (p.1 > geo.workspaceRect.right + 6) ||
  decide (p.2 < geo.workspaceRect.top - 6) || decide (p.2 > geo.workspaceRect.bottom + 6)

/-- The handler `blockDragEnd` with the pointer at `evt`. `fuel` bounds the call stack
of `removeBlock` (`none`: exhausted). When an `appendChild` throws, the handler stops
there: `dragBlock` stays set. -/
def blockDragEnd (geo : Geometry) (fuel : Nat) (st : State) (evt : Int × Int) : Option State :=
  match st.dragBlock with
  | none => some st
  | some d =>
    if isPointOutsideWorkspace geo evt || geo.trashRect.containsWithin 0 evt then
      match removeBlock fuel st d with
      | some st1 => some { st1 with dragBlock := none }
      | none => none
    else
      match findSnapTarget geo st (geo.svgPoint evt) d with
      | some (SnapTarget.input parent varname) =>
        match snapToInput st d parent varname with
        | Except.ok st1 => some { st1 with dragBlock := none }
        | Except.error st1 => some st1
      | some (SnapTarget.container parent) =>
        let st1 := detachFromParent st d
        let st2 := st1.modify parent (fun b => { b with nestedBlocks := b.nestedBlocks ++ [d] })
        if domContains st2 d st2.heap.length parent then some st2
        else
          let parentId := match st2.get parent with
            | some pb => pb.id
            | none => ""
          let st3 := st2.modify d (fun b =>
            { b with domParent := DomParent.inside parent, parentBlock := some parentId })
          some { st3 with dragBlock := none }
      | some (SnapTarget.below _) =>
        let st1 := detachFromParent st d
        let st2 := st1.modify d (fun b => { b with domParent := DomParent.workspace })
        some { st2 with dragBlock := none }
      | none => some { st with dragBlock := none }

/-- A drag session on `target`: mouse down on it, one move to `mouse`, release there. -/
def dragSession (geo : Geometry) (fuel : Nat) (st : State) (target : Ref) (mouse : Int × Int) :
    Option State :=
  blockDragEnd geo fuel (blockDragMove (blockDragStart st target) mouse) mouse

/-! ## Serializer -/

/-- The call `b.nestedBlocks.map(nb => nb.dataset.id)`; `none` when it throws, on an
entry that is no element (`nb.dataset` is undefined). -/
def nestedIdsOfList (st : State) : List Ref → Option (List String)
  | [] => some []
  | nb :: rest =>
    match st.get nb, nestedIdsOfList st rest with
    | some c, some ids => some (c.id :: ids)
    | _, _ => none

/-- The record that `serializeWorkspace` writes for one block; `none` when the
callback throws. -/
def blockStateOf (st : State) (b : Block) : Option BlockState :=
  match nestedIdsOfList st b.nestedBlocks with
  | none => none
  | some ids =>
    some
      { id := b.id
        label := b.label
        type := b.type
        color := b.color
        templates := b.templates
        parentBlock := if truthyOpt b.parentBlock then b.parentBlock else none
        parentInput := b.parentInput
        inputState := b.inputs
        nestedIds := ids }

/-- The call `blocks.map(b => ...)` of `serializeWorkspace`; `none` when a callback
throws. -/
def blockStatesOf (st : State) : List Ref → Option (List BlockState)
  | [] => some []
  | r :: rest =>
    match (st.get r).bind (blockStateOf st), blockStatesOf st rest with
    | some rec, some recs => some (rec :: recs)
    | _, _ => none

/-- The function `serializeWorkspace` (the declaration in force, the second one):
the payload, also written to the storage. The result is `none` when the function
throws, which it does before anything is written. -/
def serializeWorkspace (st : State) : Option (State × Payload) :=
  match blockStatesOf st st.blocks with
  | none => none
  | some records =>
    let payload : Payload := { blockDefs := some st.blockDefs, blockStates := some records }
    some ({ st with storage := some payload }, payload)

/-- The loop `for (const vn in st.inputState) if (el.inputs[vn]) ...value = ...`;
`none` when it throws: for a key that is no own key of `el.inputs` but names a member
of `Object.prototype`, `el.inputs[vn]` is that member, which has no `input`. -/
def restoreValues (inputState : List (String × InputInfo))
    (inputs : List (String × InputInfo)) : Option (List (String × InputInfo)) :=
  match inputState with
  | [] => some inputs
  | kv :: rest =>
    match lookup inputs kv.1 with
    | some info => restoreValues rest (replaceKey kv.1 { info with value := kv.2.value } inputs)
    | none => if objectPrototypeKeys.contains kv.1 then none else restoreValues rest inputs

/-- First phase of the load: one element per record, pushed on `blocks`, appended to
the workspace and entered in `idToEl`. `uuid n` is the id drawn for record `n` when
the record has none. `Except.error` carries the state at the point where the loop
over `st.inputState` throws: the element of that record is not yet pushed. -/
def loadCreate (uuid : Nat → String) :
    List BlockState → Nat → State → List (String × Ref) →
    Except State (State × List (String × Ref))
  | [], _, st, idToEl => Except.ok (st, idToEl)
  | rec :: rest, n, st, idToEl =>
    let d : BlockDef :=
      { label := rec.label, type := rec.type, color := rec.color, templates := rec.templates,
        containerVar := none }
    let el0 := createBlock d (some rec.id) (uuid n)
    match restoreValues rec.inputState el0.inputs with
    | none => Except.error st
    | some inputs =>
      let el := { el0 with inputs := inputs, domParent := DomParent.workspace }
      let r := st.heap.length
      loadCreate uuid rest (n + 1)
        { st with heap := st.heap ++ [HeapObj.element el], blocks := st.blocks ++ [r] }
        (jsSet idToEl rec.id r)

/-- The loop over `st.nestedIds` for the element `el`; `Except.error` carries the
state at the point where `el.containerGroup.appendChild(childEl)` throws. An id that
is no key of `idToEl` but names a member of `Object.prototype` reads as that member:
it is pushed on `el.nestedBlocks` and `appendChild` throws on it. -/
def loadNested (idToEl : List (String × Ref)) (el : Ref) :
    List String → State → Except State State
  | [], st => Except.ok st
  | childId :: rest, st =>
    match lookup idToEl childId with
    | none =>
      if objectPrototypeKeys.contains childId then
        let member := st.inheritedMember childId
        Except.error
          (member.1.modify el (fun b => { b with nestedBlocks := b.nestedBlocks ++ [member.2] }))
      else loadNested idToEl el rest st
    | some childEl =>
      let st1 := st.modify el (fun b => { b with nestedBlocks := b.nestedBlocks ++ [childEl] })
      match st1.get el with
      | none => Except.error st1
      | some eb =>
        if !eb.hasContainerGroup || domContains st1 childEl st1.heap.length el then
          Except.error st1
        else
          loadNested idToEl el rest
            (st1.modify childEl (fun b =>
              { b with domParent := DomParent.inside el, parentBlock := some eb.id }))

/-- The loop over `st.inputState` for the element `el`; `Except.error` carries the
state at the point where a statement throws. A `childId` that is no key of `idToEl`
but names a member of `Object.prototype` reads as that member, and
`childEl.setAttribute` throws when the slot exists. A key `vn` that is no own key of
`el.inputs` but names a member of `Object.prototype` reads as that member, which has
no `fo`: the assignment to `info.fo.innerHTML` throws. The last case is
`el.appendChild(childEl)` on a node that contains `el`. -/
def loadInputs (idToEl : List (String × Ref)) (el : Ref) :
    List (String × InputInfo) → State → Except State State
  | [], st => Except.ok st
  | (vn, saved) :: rest, st =>
    if truthyOpt saved.childId then
      match lookup idToEl (saved.childId.getD ""), st.get el with
      | none, some eb =>
        if objectPrototypeKeys.contains (saved.childId.getD "") &&
            ((lookup eb.inputs vn).isSome || objectPrototypeKeys.contains vn)
        then Except.error st
        else loadInputs idToEl el rest st
      | some childEl, some eb =>
        match lookup eb.inputs vn, st.get childEl with
        | some info, some cb =>
          if domContains st childEl st.heap.length el then Except.error st
          else
            let st1 := st.modify childEl (fun b => { b with domParent := DomParent.inside el })
            let st2 := st1.modify el (fun b =>
              { b with inputs := replaceKey vn { info with childId := some cb.id } b.inputs })
            loadInputs idToEl el rest
              (st2.modify childEl (fun b =>
                { b with parentInput := some (eb.id, vn), parentBlock := some eb.id }))
        | none, _ =>
          if objectPrototypeKeys.contains vn then Except.error st
          else loadInputs idToEl el rest st
        | _, _ => loadInputs idToEl el rest st
      | _, _ => loadInputs idToEl el rest st
    else loadInputs idToEl el rest st

/-- Second phase of the load: the relationships of every record, in order. -/
def loadLink (idToEl : List (String × Ref)) : List BlockState → State → Except State State
  | [], st => Except.ok st
  | rec :: rest, st =>
    match lookup idToEl rec.id with
    | none => loadLink idToEl rest st
    | some el =>
      match loadNested idToEl el rec.nestedIds st with
      | Except.error st1 => Except.error st1
      | Except.ok st1 =>
        match loadInputs idToEl el rec.inputState st1 with
        | Except.error st2 => Except.error st2
        | Except.ok st2 => loadLink idToEl rest st2

/-- The function `loadWorkspaceFromStorage()` (the declaration in force, the second
one, which takes no argument and reads the storage): the new state and the returned
boolean. `initPalette` assigns `blockDefs` and throws at the first entry without a
string label. The ids of the records themselves are taken not to be `__proto__`,
which would replace the prototype of `idToEl`. -/
def loadWorkspaceFromStorage (uuid : Nat → String) (st : State) : State × Bool :=
  match st.storage with
  | none => (st, false)
  | some data =>
    let st1 := { st with blockDefs := data.blockDefs.getD (defaultBlocks.map some) }
    if st1.blockDefs.any (fun d => d.isNone) then (st1, false)
    else
      let st2 := st1.forEachBlock (fun b => { b with domParent := DomParent.detached })
      let st3 := { st2 with blocks := [] }
      let records := data.blockStates.getD []
      match loadCreate uuid records 0 st3 [] with
      | Except.error st4 => (st4, false)
      | Except.ok created =>
        match loadLink created.2 records created.1 with
        | Except.ok st4 => (st4, true)
        | Except.error st4 => (st4, false)

/-! ## Code generator -/

/-- The object `functionBodies`: its own properties. -/
abbrev FunctionBodies := List (String × String)

/-- How a call of `generateCodeFromBlock` can leave the embedding: the call stack is
exhausted (a `RangeError` in the script), the value returned is not a text (a member
inherited from `Object.prototype` was read from `functionBodies`), or the block to
generate is no element (the read of `block.dataset.templates` throws). -/
inductive GenError where
  | stackOverflow
  | notText
  | noElement
deriving DecidableEq, Repr

/-- Result of a call: the returned text and `functionBodies` after the call. -/
abbrev GenResult := Except GenError (String × FunctionBodies)

/-- The value of `functionBodies[key]`. -/
inductive TableValue where
  | undefined
  | text (s : String)
  | inherited
deriving DecidableEq, Repr

/-- The read `functionBodies[key]`: an own property, else a member of `Object.prototype`. -/
def tableGet (fb : FunctionBodies) (key : String) : TableValue :=
  match lookup fb key with
  | some v => TableValue.text v
  | none => if objectPrototypeKeys.contains key then TableValue.inherited else TableValue.undefined

/-- The expression `templates[lang] || templates.javascript || ""`, which groups as
`(templates[lang] || templates.javascript) || ""`. The language is a value of the
language select and is taken not to be the name of a member of `Object.prototype`. -/
def selectTemplate (templates : List (String × String)) (lang : String) : String :=
  jsOr (jsOrOpt (lookup templates lang) (lookup templates "javascript")) ""

/-- The expression `indent + (lang === "python" ? "    " : "")`. -/
def childIndent (lang indent : String) : String :=
  indent ++ (if lang == "python" then "    " else "")

/-- The call `parts.join(sep)`. -/
def joinWith (sep : String) : List String → String
  | [] => ""
  | [a] => a
  | a :: rest => a ++ sep ++ joinWith sep rest

/-- The loop `for (const vn in block.inputs)` that fills the object `inputs`: the
code of the child when `childId` is set and resolves, else the text of the input
element. `gen` is the recursive call for a child. -/
def gatherInputs (gen : FunctionBodies → Ref → GenResult) (st : State) :
    List (String × InputInfo) → List (String × String) → FunctionBodies →
    Except GenError (List (String × String) × FunctionBodies)
  | [], acc, fb => Except.ok (acc, fb)
  | (vn, info) :: rest, acc, fb =>
    if truthyOpt info.childId then
      match st.findById (info.childId.getD "") with
      | some child =>
        match gen fb child with
        | Except.ok (code, fb1) => gatherInputs gen st rest (jsSet acc vn code) fb1
        | Except.error e => Except.error e
      | none => gatherInputs gen st rest (jsSet acc vn info.value) fb
    else gatherInputs gen st rest (jsSet acc vn info.value) fb

/-- The loop `for (const k in inputs) template = template.replaceAll("%" + k, inputs[k])`. -/
def substituteInputs (template : String) (inputs : List (String × String)) : String :=
  inputs.foldl (fun t kv => replaceAll t kv.1 kv.2) template

/-- The call `block.nestedBlocks.map(b => generateCodeFromBlock(b, ...))`. -/
def genNested (gen : FunctionBodies → Ref → GenResult) :
    List Ref → FunctionBodies → Except GenError (List String × FunctionBodies)
  | [], fb => Except.ok ([], fb)
  | nb :: rest, fb =>
    match gen fb nb with
    | Except.error e => Except.error e
    | Except.ok (code, fb1) =>
      match genNested gen rest fb1 with
      | Except.error e => Except.error e
      | Except.ok (codes, fb2) => Except.ok (code :: codes, fb2)

/-- The separator of the join of the nested code. -/
def nestedSeparator (lang indent : String) : String :=
  if lang == "python" then "\n" ++ indent ++ "    " else "\n"

/-- The end of `generateCodeFromBlock`, from the function definition test on:
`template` is the template after the substitution of the inputs. -/
def finishTemplate (block : Block) (template innerCode : String) (fb : FunctionBodies) :
    GenResult :=
  let normal : GenResult :=
    let t1 := match block.containerVar with
      | some varName =>
        if truthy varName then replaceAll template varName innerCode
        else replaceBodyThenElse template innerCode
      | none => replaceBodyThenElse template innerCode
    Except.ok (cleanupQuotes t1, fb)
  match funcDefMatch template, truthy innerCode with
  | some funcName, true => Except.ok ("", jsSet fb funcName innerCode)
  | _, _ =>
    match tableGet fb (jsTrim template) with
    | TableValue.text v => if truthy v then Except.ok (v, fb) else normal
    | TableValue.inherited => Except.error GenError.notText
    | TableValue.undefined => normal

/-- The body of `generateCodeFromBlock(block, lang, indent)` once the template is
selected; `gen` is the recursive call for a child (whose indent is `childIndent`). -/
def generateBody (gen : FunctionBodies → Ref → GenResult) (st : State) (block : Block)
    (template lang indent : String) (fb : FunctionBodies) : GenResult :=
  match gatherInputs gen st block.inputs [] fb with
  | Except.error e => Except.error e
  | Except.ok (inputs, fb1) =>
    match genNested gen block.nestedBlocks fb1 with
    | Except.error e => Except.error e
    | Except.ok (codes, fb2) =>
      finishTemplate block (substituteInputs template inputs)
        (joinWith (nestedSeparator lang indent) codes) fb2

/-- The function `generateCodeFromBlock(block, lang, indent)`, with the table
`functionBodies` passed in and out. The first argument bounds the depth of the
recursion. -/
def generateCodeFromBlock (st : State) :
    Nat → FunctionBodies → Ref → String → String → GenResult
  | 0, _, _, _, _ => Except.error GenError.stackOverflow
  | fuel + 1, fb, r, lang, indent =>
    match st.get r with
    | none => Except.error GenError.noElement
    | some block =>
      generateBody (fun fb1 c => generateCodeFromBlock st fuel fb1 c lang (childIndent lang indent))
        st block (selectTemplate block.templates lang) lang indent fb

/-- The filter `blocks.filter(b => !b.parentBlock && !b.parentInput)`. -/
def rootBlocks (st : State) : List Ref :=
  st.blocks.filter (fun r =>
    match st.get r with
    | some b => !truthyOpt b.parentBlock && b.parentInput.isNone
    | none => false)

/-- The handler of the generate button: `functionBodies` is reset, every root block
is generated with an empty indent and the parts are joined by a newline. The result
is the text put in the code area and the table after the run. -/
def generateBtnOnclick (fuel : Nat) (st : State) (lang : String) :
    Except GenError (String × FunctionBodies) :=
  let st1 := { st with functionBodies := [] }
  match genNested (fun fb r => generateCodeFromBlock st1 fuel fb r lang "") (rootBlocks st1)
      st1.functionBodies with
  | Except.error e => Except.error e
  | Except.ok (codeParts, fb) => Except.ok (joinWith "\n" codeParts, fb)

/-! ## Observations on a state -/

/-- The `childId` of the slot `vn` of the block with `data-id` equal to `id`. -/
def State.slotChild (st : State) (id vn : String) : Option String :=
  match st.byId id with
  | some b =>
    match lookup b.inputs vn with
    | some info => info.childId
    | none => none
  | none => none

/-- The `data-id`s of the nested blocks of the block with `data-id` equal to `id`. -/
def State.nestedIdsOf (st : State) (id : String) : List String :=
  match st.byId id with
  | some b => b.nestedBlocks.filterMap (fun nb => (st.get nb).map (fun c => c.id))
  | none => []

/-- The fields `parentBlock` and `parentInput` of the block with `data-id` equal to `id`. -/
def State.parentFields (st : State) (id : String) :
    Option (Option String × Option (String × String)) :=
  (st.byId id).map (fun b => (b.parentBlock, b.parentInput))

/-- The `data-id`s of the array `blocks`, in order. -/
def State.ids (st : State) : List String :=
  st.blocks.filterMap (fun r => (st.get r).map (fun b => b.id))

/-- The children of an element in the composition graph: its nested blocks and the
blocks that its slots name. -/
def State.children (st : State) (r : Ref) : List Ref :=
  match st.get r with
  | none => []
  | some b =>
    b.nestedBlocks ++ b.inputs.filterMap (fun kv =>
      if truthyOpt kv.2.childId then st.findById (kv.2.childId.getD "") else none)

/-- Whether `b` is reached from `a` by at least one and at most `n` child edges. -/
def reaches (st : State) : Nat → Ref → Ref → Bool
  | 0, _, _ => false
  | n + 1, a, b => (st.children a).any (fun c => c == b || reaches st n c b)

/-- No block of the registry is reached from itself (a shortest cycle has at most as
many edges as there are elements). -/
def acyclic (st : State) : Bool :=
  st.blocks.all (fun r => !reaches st st.heap.length r r)

/-- How many times the element `r` occurs in the `nestedBlocks` lists of the registry,
with the holder of each occurrence. -/
def holdersInLists (st : State) (r : Ref) : List Ref :=
  st.blocks.flatMap (fun p =>
    match st.get p with
    | some b => List.replicate (b.nestedBlocks.count r) p
    | none => [])

/-- The slots of the registry whose `childId` is `id`, as pairs of the holder's
`data-id` and the slot name. -/
def holdersInSlots (st : State) (id : String) : List (String × String) :=
  st.blocks.flatMap (fun p =>
    match st.get p with
    | some b => (b.inputs.filter (fun kv => kv.2.childId == some id)).map (fun kv => (b.id, kv.1))
    | none => [])

/-- Parent state None: the parent fields are empty and no list and no slot references
the block. -/
def isParentless (st : State) (r : Ref) : Bool :=
  match st.get r with
  | some b =>
    !truthyOpt b.parentBlock && b.parentInput.isNone &&
    (holdersInLists st r).isEmpty && (holdersInSlots st b.id).isEmpty
  | none => false

/-- Parent state InContainer: the block occurs exactly once in the `nestedBlocks` of
one container, in no slot, and `parentBlock` names that container. -/
def isInContainer (st : State) (r : Ref) : Bool :=
  match st.get r with
  | some b =>
    b.parentInput.isNone && (holdersInSlots st b.id).isEmpty &&
    (match holdersInLists st r with
      | [c] => (st.get c).map (fun cb => some cb.id == b.parentBlock) == some true
      | _ => false)
  | none => false

/-- Parent state InInput: exactly one slot holds the id of the block, no list holds
the block, and `parentInput` names that slot. -/
def isInInput (st : State) (r : Ref) : Bool :=
  match st.get r with
  | some b =>
    (holdersInLists st r).isEmpty &&
    (match holdersInSlots st b.id with
      | [slot] => b.parentInput == some slot
      | _ => false)
  | none => false

/-- The user types `text` in the input element of slot `vn` of the element `r`. -/
def setInputValue (st : State) (r : Ref) (vn text : String) : State :=
  st.modify r (fun b =>
    { b with inputs := match lookup b.inputs vn with
        | some info => replaceKey vn { info with value := text } b.inputs
        | none => b.inputs })

/-! ## Scenarios -/

/-- The definition `say %text` with its javascript template. -/
def sayDef : BlockDef :=
  { label := "say %text", type := "command", color := "#4C97FF", containerVar := none,
    templates := [("javascript", "console.log(%text);")] }

/-- The reporter `%a + %b`. -/
def plusDef : BlockDef :=
  { label := "%a + %b", type := "reporter", color := "#FFCA28", containerVar := none,
    templates := [("javascript", "(%a + %b)")] }

/-- The container `repeat %times times` with the javascript template of the scenario. -/
def repeatDef : BlockDef :=
  { label := "repeat %times times", type := "container", color := "#FF6680",
    containerVar := none,
    templates := [("javascript", "for (let i=0;i<%times;i++)\x7b\n%body\n\x7d")] }

/-- A rectangle far from every pointer position used below. -/
def farRect : Rect := { left := 100000, right := 100001, top := 100000, bottom := 100001 }

/-- A rendering in which the pointer positions used below lie in the workspace, away
from the trash and from every block, except for the slot rectangles `slots` and the
inner rectangles `inners`. -/
def geometryWith (slots : List ((Ref × String) × Rect)) (inners : List (Ref × Rect)) : Geometry :=
  { foRect := fun r vn =>
      match slots.find? (fun e => e.1.1 == r && e.1.2 == vn) with
      | some e => e.2
      | none => farRect
    innerRect := fun r =>
      match inners.find? (fun e => e.1 == r) with
      | some e => e.2
      | none => farRect
    ctm := fun _ => (50000, 50000)
    bbox := fun _ => (140, 30)
    workspaceRect := { left := 0, right := 2000, top := 0, bottom := 2000 }
    trashRect := { left := 3000, right := 3100, top := 3000, bottom := 3100 }
    svgPoint := fun p => p }

/-- The slot `text` of the first element occupies the rectangle it has when the
`say` block stands at the origin. -/
def textSlotGeometry : Geometry :=
  geometryWith [((0, "text"), { left := 42, right := 102, top := 5, bottom := 27 })] []

/-- A `say` block (`P`) and two reporters (`R1`, `R2`) taken from the palette, then
`R1` dragged into the slot `text` of `P`. -/
def occupiedSlotState : Option State :=
  dragSession textSlotGeometry 8
    (paletteDrop (paletteDrop (paletteDrop State.empty sayDef "P" none) plusDef "R1" none)
      plusDef "R2" none)
    1 (44, 6)

/-- The state `occupiedSlotState` after `R2` is dragged and released over the same,
occupied, slot. -/
def secondDropState : Option State :=
  occupiedSlotState.bind (fun st => dragSession textSlotGeometry 8 st 2 (44, 6))

/-- The snapshot of a state written by `serializeWorkspace` and read back by
`loadWorkspaceFromStorage`: the state after the load and the boolean it returns. When
the save throws, the load reads the storage as it was. -/
def saveAndLoad (st : State) : State × Bool :=
  match serializeWorkspace st with
  | some saved => loadWorkspaceFromStorage (fun _ => "fresh") saved.1
  | none => loadWorkspaceFromStorage (fun _ => "fresh") st

/-- The three palette blocks again; `R2` is dragged into the slot `a` of `R1` and
then `R1`, carrying `R2`, into the slot `text` of `P`. -/
def inputChainState : Option State :=
  (dragSession
    (geometryWith [((1, "a"), { left := 310, right := 370, top := 4, bottom := 26 })] []) 8
    (paletteDrop (paletteDrop (paletteDrop State.empty sayDef "P" none) plusDef "R1" none)
      plusDef "R2" none)
    2 (312, 6)).bind (fun st => dragSession textSlotGeometry 8 st 1 (44, 6))

/-- The state `inputChainState` after `P` is dragged to the trash, which calls
`removeBlock(P)`. -/
def chainRemovedState : Option State :=
  inputChainState.bind (fun st => dragSession textSlotGeometry 8 st 0 (3050, 3050))

/-- Two `repeat` containers from the palette, `D` and `C`; `C` is dragged into the
inner rectangle of `D`. -/
def nestedContainersState : Option State :=
  dragSession
    (geometryWith [] [(0, { left := 10, right := 170, top := 22, bottom := 122 })]) 8
    (paletteDrop (paletteDrop State.empty repeatDef "D" none) repeatDef "C" none)
    1 (30, 50)

/-- The rendering of `nestedContainersState`: `C` lies in the body of `D`, whose inner
rectangle has grown to hold it. The point (30, 140) is in the strip of the body of
`D` below `C`, within 8 pixels of the inner rectangle of `C`. -/
def nestedContainersGeometry : Geometry :=
  geometryWith []
    [(0, { left := 10, right := 170, top := 22, bottom := 144 }),
     (1, { left := 20, right := 180, top := 56, bottom := 136 })]

/-- The state `nestedContainersState` after `D` is picked up by that strip and
released with the pointer still over it. -/
def selfNestedState : Option State :=
  nestedContainersState.bind (fun st => dragSession nestedContainersGeometry 8 st 0 (30, 140))

/-- A `say` block from the palette with `lit` typed in its slot. -/
def sayState (lit : String) : State :=
  setInputValue (paletteDrop State.empty sayDef "S" none) 0 "text" lit

/-- A `repeat` container with `n` typed in its slot and one nested `say` block with
`lit` typed in its slot. -/
def repeatState (n lit : String) : Option State :=
  dragSession
    (geometryWith [] [(0, { left := 10, right := 170, top := 22, bottom := 122 })]) 8
    (setInputValue
      (setInputValue
        (paletteDrop (paletteDrop State.empty repeatDef "D" none) sayDef "S" none)
        0 "times" n)
      1 "text" lit)
    1 (30, 50)

/-- The definition the designer stores for a block given only a javascript template:
the other two templates are empty strings. -/
def designerDef : BlockDef :=
  { label := "beep", type := "command", color := "#888888", containerVar := none,
    templates := [("javascript", "beep();"), ("python", ""), ("c", "")] }

/-- One block of `designerDef` from the palette. -/
def designerState : State := paletteDrop State.empty designerDef "B" none

/-- A container whose javascript template has the function definition shape. -/
def greetDef : BlockDef :=
  { label := "define greet", type := "container", color := "#AA66CC", containerVar := none,
    templates := [("javascript", "greet = %body")] }

/-- One `greetDef` block from the palette, with nothing nested in it. -/
def emptyGreetState : State := paletteDrop State.empty greetDef "G" none

/-- A `greetDef` block and a `say` block with the literal `"hi"`, the second dragged
into the body of the first. -/
def greetState : State :=
  (dragSession
    (geometryWith [] [(0, { left := 10, right := 170, top := 22, bottom := 122 })]) 8
    (setInputValue (paletteDrop (paletteDrop State.empty greetDef "G" none) sayDef "S" none)
      1 "text" "\"hi\"")
    1 (30, 50)).getD State.empty

/-- The `repeat` container with `5` typed in its slot holding one `say "hi"` block. -/
def repeatHiState : State := (repeatState "5" "\"hi\"").getD State.empty

/-- The selection of the template as the specification words it: the entry of the
language when the map has one, else the javascript entry when the map has one, else
the empty string. -/
def selectTemplateAsSpecified (templates : List (String × String)) (lang : String) : String :=
  match lookup templates lang with
  | some t => t
  | none =>
    match lookup templates "javascript" with
    | some u => u
    | none => ""

/-- The selection of the template with the amendment: an entry of the language that
is the empty string counts as absent. -/
def selectTemplateAmended (templates : List (String × String)) (lang : String) : String :=
  match lookup templates lang with
  | some t =>
    if t = "" then
      match lookup templates "javascript" with
      | some u => u
      | none => ""
    else t
  | none =>
    match lookup templates "javascript" with
    | some u => u
    | none => ""

/-! ## Further definitions: generator, loader, import and export -/

/-- The ordinary end of `generateCodeFromBlock`: the container placeholder is
replaced by the nested code and the quotes are cleaned up. -/
def expandAndClean (block : Block) (template innerCode : String) : String :=
  cleanupQuotes
    (match block.containerVar with
      | some varName =>
        if truthy varName then replaceAll template varName innerCode
        else replaceBodyThenElse template innerCode
      | none => replaceBodyThenElse template innerCode)

/-- The test `!b.parentBlock && !b.parentInput` on the element `r`. -/
def isRoot (st : State) (r : Ref) : Bool :=
  match st.get r with
  | some b => !truthyOpt b.parentBlock && b.parentInput.isNone
  | none => false

/-- The emission of a run as the specification words it: the registry is walked in
order; a block without parent is generated and its code is the next part, a block
that has a parent is passed over. -/
def emitInRegistryOrder (gen : FunctionBodies → Ref → GenResult) (st : State) :
    List Ref → FunctionBodies → Except GenError (List String × FunctionBodies)
  | [], fb => Except.ok ([], fb)
  | r :: rest, fb =>
    if isRoot st r then
      match gen fb r with
      | Except.error e => Except.error e
      | Except.ok (code, fb1) =>
        match emitInRegistryOrder gen st rest fb1 with
        | Except.error e => Except.error e
        | Except.ok (codes, fb2) => Except.ok (code :: codes, fb2)
    else emitInRegistryOrder gen st rest fb

/-- The text of a generation run as the specification words it: the parts emitted in
registry order from an empty function table, joined by newlines. -/
def topLevelTextAsSpecified (fuel : Nat) (st : State) (lang : String) :
    Except GenError (String × FunctionBodies) :=
  match emitInRegistryOrder (fun fb r => generateCodeFromBlock st fuel fb r lang "") st
      st.blocks [] with
  | Except.error e => Except.error e
  | Except.ok (codes, fb) => Except.ok (joinWith "\n" codes, fb)

/-- What generation reads of a block: its id, templates, container placeholder,
inputs and nested blocks. -/
def Block.view (b : Block) :
    String × List (String × String) × Option String × List (String × InputInfo) × List Ref :=
  (b.id, b.templates, b.containerVar, b.inputs, b.nestedBlocks)

/-- Whether some record of the snapshot carries the id. -/
def carriesId (records : List BlockState) (id : String) : Bool :=
  records.any (fun r => r.id == id)

/-- A record without its dangling references: the entries of `nestedIds` that no
record carries are dropped and a `childId` that no record carries is set to null. -/
def pruneRecord (records : List BlockState) (rec : BlockState) : BlockState :=
  { rec with
    nestedIds := rec.nestedIds.filter (carriesId records)
    inputState := rec.inputState.map (fun kv =>
      match kv.2.childId with
      | some id => if carriesId records id then kv else (kv.1, { kv.2 with childId := none })
      | none => kv) }

/-- The snapshot without its dangling references. -/
def pruneDangling (records : List BlockState) : List BlockState :=
  records.map (pruneRecord records)

/-- The state with `records` (and the definitions `defs`) as the saved snapshot. -/
def withSnapshot (st : State) (defs : Option (List DefEntry)) (records : List BlockState) :
    State :=
  { st with storage := some { blockDefs := defs, blockStates := some records } }

/-- The object an import file parses to: each part is `none` when it is missing or
falsy; `blockDefs`, when present, is an array. -/
structure ImportData where
  blockDefs : Option (List DefEntry)
  blockStates : Option (List BlockState)
  code : Option String
  lang : Option String
deriving DecidableEq, Repr

/-- The text of an import file: not valid JSON, the JSON text `null`, or a text that
parses to an object. -/
inductive ImportFile where
  | invalidJson
  | null
  | data (d : ImportData)
deriving DecidableEq, Repr

/-- The `onload` handler of the import: the new state and whether success was
reported (`false`: the `catch` branch ran). `blockDefs = data.blockDefs` comes before
the `forEach` that throws on an entry without a string label; the call
`loadWorkspaceFromStorage(data)` reaches the declaration in force, which ignores its
argument and catches its own errors; `saveWorkspace()` ends the handler, and when it
throws the `catch` branch runs with the registry as the rebuild left it. The write of
the item to the storage itself is taken to succeed. -/
def importFileOnload (uuid : Nat → String) (st : State) : ImportFile → State × Bool
  | ImportFile.invalidJson => (st, false)
  | ImportFile.null => (st, false)
  | ImportFile.data d =>
    let st1 : State :=
      match d.blockDefs with
      | some defs => { st with blockDefs := defs }
      | none => st
    if (d.blockDefs.getD []).any (fun e => e.isNone) then (st1, false)
    else
      let st2 : State :=
        match d.blockStates with
        | some _ => (loadWorkspaceFromStorage uuid st1).1
        | none => st1
      match serializeWorkspace st2 with
      | some saved => (saved.1, true)
      | none => (st2, false)

/-- The names `n` such that `%n` occurs in the label with `n` a maximal non-empty run
of word characters, in order of occurrence: the placeholders as the specification
words them. -/
def placeholderNames : List Char → List String
  | [] => []
  | c :: cs =>
    if c.toNat == 37 && (match cs with
        | [] => false
        | d :: _ => isWordChar d) then
      ⟨cs.takeWhile isWordChar⟩ :: placeholderNames cs
    else placeholderNames cs

/-- The keys of the inputs object of a block. -/
def Block.inputKeys (b : Block) : List String := b.inputs.map (fun kv => kv.1)

/-- The translation part (`e`, `f`) of `block.getCTM()`: the offset of the block
composed with the offsets of the groups around it up to the workspace, in workspace
coordinates. -/
def getCTM (own : Int × Int) (ancestors : List (Int × Int)) : Int × Int :=
  ancestors.foldl (fun acc a => (acc.1 + a.1, acc.2 + a.2)) own

/-- The map `pt.matrixTransform(workspace.getScreenCTM().inverse())` when the
workspace sits at `workspaceOffset` on the screen: from screen coordinates to
workspace coordinates. -/
def screenToWorkspace (workspaceOffset : Int × Int) (pt : Int × Int) : Int × Int :=
  (pt.1 - workspaceOffset.1, pt.2 - workspaceOffset.2)

/-- The position that `detachFromParent` passes to `setTransform`: the point
(`worldCTM.e`, `worldCTM.f`) sent through the inverse of the screen matrix of the
workspace. -/
def detachTransform (workspaceOffset own : Int × Int) (ancestors : List (Int × Int)) :
    Int × Int :=
  screenToWorkspace workspaceOffset (getCTM own ancestors)

/-- The object handed to the download by the export handler. -/
inductive ExportData where
  | blocks (blockDefs : List DefEntry)
  | workspace (blockStates : List BlockState)
  | project (blockDefs : List DefEntry) (blockStates : List BlockState) (code : String)
      (lang : String)
  | undefined
deriving DecidableEq, Repr

/-- The `change` handler of the export menu for the selected `action`, with `lang`
the value of the language select: the new state and the data downloaded, `none` when
nothing is downloaded. Every export action first calls `serializeWorkspace`, and the
handler ends there when that call throws. For
`export-project` the handler evaluates `generateCode(lang)`; no declaration of the
script binds `generateCode`, so the call throws a `ReferenceError` and the handler
ends there. -/
def exportMenuChange (st : State) (action lang : String) : State × Option ExportData :=
  if action.data.isEmpty then (st, none)
  else if "export".data.isPrefixOf action.data then
    match serializeWorkspace st with
    | none => (st, none)
    | some serialized =>
      if action = "export-blocks" then
        (serialized.1, some (ExportData.blocks serialized.1.blockDefs))
      else if action = "export-workspace" then
        (serialized.1, some (ExportData.workspace (serialized.2.blockStates.getD [])))
      else if action = "export-project" then
        (serialized.1, none)
      else (serialized.1, some ExportData.undefined)
  else (st, none)

/-- The bundle of a full-project export as the specification words it: the
definitions, the records of `serializeWorkspace`, the text of a generation run for
the language, and the language. -/
def projectBundleAsSpecified (fuel : Nat) (st : State) (lang : String) : Option ExportData :=
  match generateBtnOnclick fuel st lang, serializeWorkspace st with
  | Except.ok (code, _), some serialized =>
    some (ExportData.project st.blockDefs (serialized.2.blockStates.getD []) code lang)
  | _, _ => none

/-- The definition `call %f`, whose template is its only input. -/
def callDef : BlockDef :=
  { label := "call %f", type := "command", color := "#996633", containerVar := none,
    templates := [("javascript", "%f")] }

/-- The block `greet = %body` holding one `say "hi"`, followed by a `call` block with
`lit` typed in its slot. -/
def callState (lit : String) : State :=
  (dragSession
    (geometryWith [] [(0, { left := 10, right := 170, top := 22, bottom := 122 })]) 8
    (setInputValue
      (setInputValue
        (paletteDrop (paletteDrop (paletteDrop State.empty greetDef "G" none) sayDef "S" none)
          callDef "K" none)
        1 "text" "\"hi\"")
      2 "f" lit)
    1 (30, 50)).getD State.empty

/-- A snapshot of a `repeat` container `D` and a `say` block `S` nested in it; the
container also lists the id `ghost` and the slot of `S` names the id `phantom`, which
no record carries. -/
def danglingRecords : List BlockState :=
  [ { id := "D", label := "repeat %times times", type := "container", color := "#FF6680",
      templates := repeatDef.templates, parentBlock := none, parentInput := none,
      inputState := [("times", { value := "5", childId := none })],
      nestedIds := ["ghost", "S"] },
    { id := "S", label := "say %text", type := "command", color := "#4C97FF",
      templates := sayDef.templates, parentBlock := some "D", parentInput := none,
      inputState := [("text", { value := "\"hi\"", childId := some "phantom" })],
      nestedIds := [] } ]

/-- A registry holding one block `CUR`, definitions `[plusDef]`, and a saved snapshot
made earlier of a registry holding one block `OLD` with the definition `sayDef`. -/
def beforeImportState : State :=
  { (paletteDrop State.empty sayDef "CUR" none) with
    blockDefs := [some plusDef]
    storage := some
      { blockDefs := some [some sayDef]
        blockStates := some
          [ { id := "OLD", label := "say %text", type := "command", color := "#4C97FF",
              templates := sayDef.templates, parentBlock := none, parentInput := none,
              inputState := [("text", { value := "old", childId := none })],
              nestedIds := [] } ] } }

/-- An import file carrying the definition `repeatDef` and one instance `NEW`. -/
def importedProject : ImportFile :=
  ImportFile.data
    { blockDefs := some [some repeatDef]
      blockStates := some
        [ { id := "NEW", label := "say %text", type := "command", color := "#4C97FF",
            templates := sayDef.templates, parentBlock := none, parentInput := none,
            inputState := [("text", { value := "new", childId := none })],
            nestedIds := [] } ]
      code := none
      lang := none }

/-- An import file whose `blockDefs` array holds one object without a label. -/
def malformedDefsFile : ImportFile :=
  ImportFile.data { blockDefs := some [none], blockStates := none, code := none, lang := none }

/-- The state `nestedContainersState` (`D` first in the registry, `C` nested in it)
with a `say` block `S` added from the palette. -/
def outerFirstState : State :=
  paletteDrop (nestedContainersState.getD State.empty) sayDef "S" none

/-- The same arrangement built with the inner container first in the registry: `C`,
then `D`, `C` dragged into `D`, then `S`. -/
def innerFirstState : State :=
  paletteDrop
    ((dragSession
      (geometryWith [] [(1, { left := 10, right := 170, top := 22, bottom := 122 })]) 8
      (paletteDrop (paletteDrop State.empty repeatDef "C" none) repeatDef "D" none)
      0 (30, 50)).getD State.empty)
    sayDef "S" none

/-- The rendering of `innerFirstState`: the same rectangles as
`nestedContainersGeometry`, with the refs of `C` and `D` exchanged. -/
def innerFirstGeometry : Geometry :=
  geometryWith []
    [(1, { left := 10, right := 170, top := 22, bottom := 144 }),
     (0, { left := 20, right := 180, top := 56, bottom := 136 })]

/-- A definition whose label has no placeholder but a text that starts with `%`. -/
def percentDoneDef : BlockDef :=
  { label := "% done", type := "command", color := "#4C97FF", containerVar := none,
    templates := [("javascript", "done();")] }

/-- The call `snapToInput(c, parent, varname)` followed by `detachFromParent(c)`; when
the first call throws, the second runs on the state reached at the throw. -/
def attachThenDetach (st : State) (c parent : Ref) (varname : String) : State :=
  detachFromParent
    (match snapToInput st c parent varname with
      | Except.ok s => s
      | Except.error s => s)
    c

/-- A `say` block `P` with `hi` typed in its slot and a reporter `R1`, both taken from
the palette and lying free in the workspace. -/
def sayBesideReporterState : State :=
  setInputValue
    (paletteDrop (paletteDrop State.empty sayDef "P" none) plusDef "R1" none) 0 "text" "hi"

/-- The snapshot `danglingRecords` with the id `constructor` where the container
listed `ghost`: no record carries it, and every plain object inherits a member of
that name. -/
def inheritedNameRecords : List BlockState :=
  [ { id := "D", label := "repeat %times times", type := "container", color := "#FF6680",
      templates := repeatDef.templates, parentBlock := none, parentInput := none,
      inputState := [("times", { value := "5", childId := none })],
      nestedIds := ["constructor", "S"] },
    { id := "S", label := "say %text", type := "command", color := "#4C97FF",
      templates := sayDef.templates, parentBlock := some "D", parentInput := none,
      inputState := [("text", { value := "\"hi\"", childId := some "phantom" })],
      nestedIds := [] } ]

/-- The snapshot of the same two blocks in which the only dangling reference is the
`childId` of the slot of `S`, which names `toString`. -/
def inheritedSlotRecords : List BlockState :=
  [ { id := "D", label := "repeat %times times", type := "container", color := "#FF6680",
      templates := repeatDef.templates, parentBlock := none, parentInput := none,
      inputState := [("times", { value := "5", childId := none })],
      nestedIds := ["S"] },
    { id := "S", label := "say %text", type := "command", color := "#4C97FF",
      templates := sayDef.templates, parentBlock := some "D", parentInput := none,
      inputState := [("text", { value := "\"hi\"", childId := some "toString" })],
      nestedIds := [] } ]

/-- The load of the snapshot `records` into an empty editor. -/
def loadRecords (records : List BlockState) : State × Bool :=
  loadWorkspaceFromStorage (fun _ => "fresh") (withSnapshot State.empty none records)

/-- A registry holding one block `CUR`, definitions `[plusDef]`, and in the storage
the snapshot `inheritedNameRecords`, whose container lists the id `constructor`. -/
def brokenSnapshotState : State :=
  withSnapshot
    { (paletteDrop State.empty sayDef "CUR" none) with blockDefs := [some plusDef] }
    none inheritedNameRecords

/-- An import file that carries an empty array of records and nothing else. -/
def emptyRecordsFile : ImportFile :=
  ImportFile.data { blockDefs := none, blockStates := some [], code := none, lang := none }

/-- The default block `say %text` (first entry of `defaultBlocks`). -/
def defaultSay : BlockDef := defaultBlocks.get ⟨0, by decide⟩

/-- The default container `repeat %times times` (third entry of `defaultBlocks`),
whose python template is `for i in range(%times):` followed by a line break, four
spaces and `%body`. -/
def defaultRepeat : BlockDef := defaultBlocks.get ⟨2, by decide⟩

/-- A drag session that releases `child` with the pointer inside the inner
rectangle of `container` and of no other container. -/
def dropInto (st : State) (child container : Ref) : State :=
  (dragSession
    (geometryWith [] [(container, { left := 10, right := 170, top := 22, bottom := 122 })]) 8
    st child (30, 50)).getD State.empty

/-- Two default `repeat` containers `O` and `I` and three default `say` blocks `A`,
`B`, `C` from the palette, with the literals 2, 3 and 1, 2, 3 typed in their slots. -/
def fiveDefaultBlocks : State :=
  setInputValue (setInputValue (setInputValue (setInputValue (setInputValue
    (paletteDrop (paletteDrop (paletteDrop (paletteDrop (paletteDrop State.empty
      defaultRepeat "O" none) defaultRepeat "I" none) defaultSay "A" none)
      defaultSay "B" none) defaultSay "C" none)
    0 "times" "2") 1 "times" "3") 2 "text" "1") 3 "text" "2") 4 "text" "3"

/-- The blocks `A` and `B` dragged into `I`: one container at the top level holding
two `say` blocks (`O` and `C` stay free). -/
def pythonFlatState : State :=
  dropInto (dropInto fiveDefaultBlocks 2 1) 3 1

/-- The state `pythonFlatState` after `I` is dragged into `O` and `C` after it:
`O` holds `I` and `C`, and `I` holds `A` and `B`. -/
def pythonNestedState : State :=
  dropInto (dropInto pythonFlatState 1 0) 4 0

/-- The number of containers around the element `r`, counted along `parentBlock`. -/
def nestingDepth (st : State) : Nat → Ref → Nat
  | 0, _ => 0
  | fuel + 1, r =>
    match st.get r with
    | none => 0
    | some b =>
      match st.findById (b.parentBlock.getD "") with
      | some p => if truthyOpt b.parentBlock then nestingDepth st fuel p + 1 else 0
      | none => 0

/-- The number of spaces at the start of a line. -/
def leadingSpaces : List Char → Nat
  | [] => 0
  | c :: cs => if c.toNat == 32 then leadingSpaces cs + 1 else 0

/-- The lines of a text, split at the line breaks. -/
def splitLines : List Char → List Char → List (List Char)
  | [], cur => [cur.reverse]
  | c :: cs, cur =>
    if c.toNat == 10 then cur.reverse :: splitLines cs [] else splitLines cs (c :: cur)

/-- The indentation of every line of a text. -/
def lineIndents (s : String) : List Nat :=
  (splitLines s.data []).map leadingSpaces

/-- A container whose template is `greet = %then`: its container placeholder, found
in the template, is `then`. -/
def thenGreetDef : BlockDef :=
  { label := "define greet", type := "container", color := "#AA66CC", containerVar := none,
    templates := [("javascript", "greet = %then")] }

/-- A container with the template `greet = %body` and a slot named `b`, whose
placeholder `%b` is a prefix of `%body`. -/
def slotGreetDef : BlockDef :=
  { label := "define %b", type := "container", color := "#AA66CC", containerVar := none,
    templates := [("javascript", "greet = %body")] }

/-- A container `G` of the definition `d` and a `say` block `S` with the literal
`"hi"`, the second dragged into the body of the first. -/
def containerHolding (d : BlockDef) : State :=
  (dragSession
    (geometryWith [] [(0, { left := 10, right := 170, top := 22, bottom := 122 })]) 8
    (setInputValue (paletteDrop (paletteDrop State.empty d "G" none) sayDef "S" none)
      1 "text" "\"hi\"")
    1 (30, 50)).getD State.empty

/-- A `greetDef` block holding two `say` blocks with the literals 1 and 2. -/
def twoSayGreetState : State :=
  dropInto (dropInto
    (setInputValue (setInputValue
      (paletteDrop (paletteDrop (paletteDrop State.empty greetDef "G" none) sayDef "A" none)
        sayDef "B" none) 1 "text" "1") 2 "text" "2") 1 0) 2 0

/-! ## Composition graph and serializer: what the code does -/

/-- C1: after `R2` is dropped on the slot that `R1` occupies, `R1` still records
the slot as its parent; the snapshot of this state loads successfully, with the same
ids and the same slot content, but `R1` comes back without a parent. -/
theorem roundtrip_changes_parent_of_displaced_block :
    secondDropState.map (fun st => (st.ids, st.slotChild "P" "text", st.parentFields "R1"))
      = some (["P", "R1", "R2"], some "R2", some (some "P", some ("P", "text"))) ∧
    secondDropState.map (fun st =>
        ((saveAndLoad st).2, (saveAndLoad st).1.ids, (saveAndLoad st).1.slotChild "P" "text",
          (saveAndLoad st).1.parentFields "R1"))
      = some (true, ["P", "R1", "R2"], some "R2", some (none, none)) := by
  refine ⟨?_, ?_⟩ <;> rfl

/-- C2: `R2` is a descendant of `P` through input slots (`P.text` holds `R1`,
`R1.a` holds `R2`); after `removeBlock(P)` the blocks `R1` and `R2` are still in the
registry and the slot `a` of `R1` still names `R2`. -/
theorem removeBlock_keeps_input_descendants :
    inputChainState.map (fun st =>
        (st.ids, st.slotChild "P" "text", st.slotChild "R1" "a", reaches st 2 0 2))
      = some (["P", "R1", "R2"], some "R1", some "R2", true) ∧
    chainRemovedState.map (fun st =>
        (st.ids, st.slotChild "R1" "a", st.parentFields "R1"))
      = some (["R1", "R2"], some "R2", some (some "P", some ("P", "text"))) := by
  refine ⟨?_, ?_⟩ <;> rfl

/-- C3: the slot `text` of `P` holds `R1`; a reporter `R2` released inside the
rectangle of that slot is attached to it: `findSnapTarget` returns the slot,
`childId` becomes `R2` and `R2` records the slot as its parent, while `R1` keeps
recording it too. -/
theorem occupied_slot_accepts_drop :
    occupiedSlotState.map (fun st => (st.slotChild "P" "text", st.parentFields "R2"))
      = some (some "R1", some (none, none)) ∧
    occupiedSlotState.map (fun st =>
        findSnapTarget textSlotGeometry (blockDragMove (blockDragStart st 2) (44, 6)) (44, 6) 2)
      = some (some (SnapTarget.input 0 "text")) ∧
    secondDropState.map (fun st =>
        (st.slotChild "P" "text", st.parentFields "R2", st.parentFields "R1"))
      = some (some "R2", some (some "P", some ("P", "text")),
          some (some "P", some ("P", "text"))) := by
  refine ⟨?_, ?_, ?_⟩ <;> rfl

/-- C4: with `C` nested in `D` the graph is acyclic; `D` released over the inner
rectangle of its own child `C` is pushed on `C.nestedBlocks` before `appendChild`
throws, so `D` is reached from itself, the handler never resets `dragBlock`, and a
generation run on the result exhausts the stack. -/
theorem drag_into_own_descendant_makes_cycle :
    nestedContainersState.map (fun st =>
        (acyclic st, st.nestedIdsOf "D", st.nestedIdsOf "C", st.dragBlock))
      = some (true, ["C"], [], none) ∧
    selfNestedState.map (fun st =>
        (acyclic st, reaches st 2 0 0, st.nestedIdsOf "D", st.nestedIdsOf "C",
          st.parentFields "D", st.dragBlock))
      = some (false, true, ["C"], ["D"], some (none, none), some 0) ∧
    selfNestedState.map (fun st => generateBtnOnclick 40 st "javascript")
      = some (Except.error GenError.stackOverflow) := by
  refine ⟨?_, ?_, ?_⟩ <;> rfl

/-- C5: in the state reached by dropping `R2` on the slot that `R1` occupies, `R1`
is in none of the three parent states: its parent fields name the slot `text` of
`P`, which holds `R2`. -/
theorem displaced_block_has_no_parent_state :
    secondDropState.map (fun st =>
        (isParentless st 1, isInContainer st 1, isInInput st 1, holdersInSlots st "R1",
          st.parentFields "R1", isInInput st 2))
      = some (false, false, false, [], some (some "P", some ("P", "text")), true) := by
  rfl

/-! ## Code generator: what the code does -/

/-- C6: the literal `"hi"` gives `console.log("hi");`, but the literal `$&`, which
contains no `=`, gives `console.log(%text);`: `replaceAll` reads `$&` in the
replacement as the matched text. -/
theorem say_literal_dollar_pattern :
    generateCodeFromBlock (sayState "\"hi\"") 5 [] 0 "javascript" ""
      = Except.ok ("console.log(\"hi\");", []) ∧
    generateCodeFromBlock (sayState "$&") 5 [] 0 "javascript" ""
      = Except.ok ("console.log(%text);", []) := by
  refine ⟨?_, ?_⟩ <;> rfl

/-- C7: with `5` and a nested `say "hi"` the container gives the text of the
scenario; with a nested `say` whose literal is `$$$$` the child generates
`console.log($$);`, which contains no `=`, and the container holds
`console.log($);` instead. -/
theorem repeat_body_dollar_pattern :
    (repeatState "5" "\"hi\"").map (fun st => generateCodeFromBlock st 5 [] 0 "javascript" "")
      = some (Except.ok ("for (let i=0;i<5;i++)\x7b\nconsole.log(\"hi\");\n\x7d", [])) ∧
    (repeatState "5" "$$$$").map (fun st => generateCodeFromBlock st 5 [] 1 "javascript" "")
      = some (Except.ok ("console.log($$);", [])) ∧
    (repeatState "5" "$$$$").map (fun st => generateCodeFromBlock st 5 [] 0 "javascript" "")
      = some (Except.ok ("for (let i=0;i<5;i++)\x7b\nconsole.log($);\n\x7d", [])) := by
  refine ⟨?_, ?_, ?_⟩ <;> rfl

/-- C8: the generate handler resets `functionBodies` first, so its result (text and
final table, or the failure) is the same whatever the table held before the run. -/
theorem generateBtnOnclick_ignores_previous_table (fuel : Nat) (st : State) (lang : String)
    (fb : FunctionBodies) :
    generateBtnOnclick fuel { st with functionBodies := fb } lang
      = generateBtnOnclick fuel { st with functionBodies := [] } lang := by
  rfl

/-! ## Lemmas on the generator -/

theorem truthy_eq_false_iff (s : String) : truthy s = false ↔ s = "" := by
  cases s with
  | mk l =>
    cases l with
    | nil => simp [truthy]
    | cons a l =>
      simp only [truthy, List.length_cons, bne_iff_ne, ne_eq, Nat.add_one_ne_zero,
        not_false_eq_true, Bool.true_eq_false, false_iff, bne_eq_false_iff_eq]
      intro h
      have := congrArg String.data h
      simp at this

theorem selectTemplate_eq_amended (templates : List (String × String)) (lang : String) :
    selectTemplate templates lang = selectTemplateAmended templates lang := by
  unfold selectTemplate selectTemplateAmended jsOr jsOrOpt truthyOpt
  cases h1 : lookup templates lang with
  | none =>
    cases h2 : lookup templates "javascript" with
    | none => simp
    | some u =>
      by_cases hu : truthy u = true
      · simp [hu]
      · have hu2 : truthy u = false := by simpa using hu
        simp [hu2, (truthy_eq_false_iff u).1 hu2]
  | some t =>
    by_cases ht : truthy t = true
    · have hne : t ≠ "" := by
        intro h
        have := (truthy_eq_false_iff t).2 h
        simp [this] at ht
      simp [ht, hne]
    · have ht2 : truthy t = false := by simpa using ht
      have hte : t = "" := (truthy_eq_false_iff t).1 ht2
      subst hte
      cases h2 : lookup templates "javascript" with
      | none => simp [ht2]
      | some u =>
        by_cases hu : truthy u = true
        · simp [ht2, hu]
        · have hu2 : truthy u = false := by simpa using hu
          simp [ht2, hu2, (truthy_eq_false_iff u).1 hu2]

theorem finishTemplate_ne_overflow (block : Block) (template innerCode : String)
    (fb : FunctionBodies) :
    finishTemplate block template innerCode fb ≠ Except.error GenError.stackOverflow := by
  unfold finishTemplate
  cases funcDefMatch template <;> cases truthy innerCode <;>
    cases tableGet fb (jsTrim template) <;> simp <;> split <;> simp

theorem gatherInputs_ne_overflow (gen : FunctionBodies → Ref → GenResult) (st : State)
    (inputs : List (String × InputInfo))
    (h : ∀ kv ∈ inputs, truthyOpt kv.2.childId = true →
      ∀ c, st.findById (kv.2.childId.getD "") = some c →
        ∀ fb, gen fb c ≠ Except.error GenError.stackOverflow) :
    ∀ acc fb, gatherInputs gen st inputs acc fb ≠ Except.error GenError.stackOverflow := by
  induction inputs with
  | nil => intro acc fb; simp [gatherInputs]
  | cons kv rest ih =>
    obtain ⟨vn, info⟩ := kv
    intro acc fb
    have ih2 := ih (fun kv hkv => h kv (List.mem_cons_of_mem _ hkv))
    unfold gatherInputs
    by_cases ht : truthyOpt info.childId = true
    · simp only [ht, if_true]
      cases hf : st.findById (info.childId.getD "") with
      | none => exact ih2 _ _
      | some child =>
        have hg := h (vn, info) (List.mem_cons_self _ _) ht child hf fb
        dsimp only
        cases hgen : gen fb child with
        | error e =>
          dsimp only
          intro hc
          apply hg
          rw [hgen]
          injection hc with hc
          rw [hc]
        | ok v =>
          obtain ⟨code, fb1⟩ := v
          dsimp only
          exact ih2 _ _
    · simp only [ht]
      exact ih2 _ _

theorem genNested_ne_overflow (gen : FunctionBodies → Ref → GenResult)
    (nested : List Ref)
    (h : ∀ c ∈ nested, ∀ fb, gen fb c ≠ Except.error GenError.stackOverflow) :
    ∀ fb, genNested gen nested fb ≠ Except.error GenError.stackOverflow := by
  induction nested with
  | nil => intro fb; simp [genNested]
  | cons nb rest ih =>
    intro fb
    have ih2 := ih (fun c hc => h c (List.mem_cons_of_mem _ hc))
    unfold genNested
    cases hgen : gen fb nb with
    | error e =>
      dsimp only
      intro hc
      apply h nb (List.mem_cons_self _ _) fb
      rw [hgen]
      injection hc with hc
      rw [hc]
    | ok v =>
      obtain ⟨code, fb1⟩ := v
      simp only
      cases hrest : genNested gen rest fb1 with
      | error e =>
        dsimp only
        intro hc
        apply ih2 fb1
        rw [hrest]
        injection hc with hc
        rw [hc]
      | ok w => simp

theorem generateBody_ne_overflow (gen : FunctionBodies → Ref → GenResult) (st : State)
    (block : Block) (template lang indent : String) (fb : FunctionBodies)
    (hin : ∀ kv ∈ block.inputs, truthyOpt kv.2.childId = true →
      ∀ c, st.findById (kv.2.childId.getD "") = some c →
        ∀ fb, gen fb c ≠ Except.error GenError.stackOverflow)
    (hnest : ∀ c ∈ block.nestedBlocks, ∀ fb, gen fb c ≠ Except.error GenError.stackOverflow) :
    generateBody gen st block template lang indent fb ≠ Except.error GenError.stackOverflow := by
  unfold generateBody
  cases h1 : gatherInputs gen st block.inputs [] fb with
  | error e =>
    dsimp only
    intro hc
    apply gatherInputs_ne_overflow gen st block.inputs hin [] fb
    rw [h1]
    injection hc with hc
    rw [hc]
  | ok v =>
    obtain ⟨inputs, fb1⟩ := v
    simp only
    cases h2 : genNested gen block.nestedBlocks fb1 with
    | error e =>
      dsimp only
      intro hc
      apply genNested_ne_overflow gen block.nestedBlocks hnest fb1
      rw [h2]
      injection hc with hc
      rw [hc]
    | ok w =>
      obtain ⟨codes, fb2⟩ := w
      exact finishTemplate_ne_overflow _ _ _ _

theorem mem_children_of_nested (st : State) (r : Ref) (block : Block)
    (hget : st.get r = some block) (c : Ref) (hc : c ∈ block.nestedBlocks) :
    c ∈ st.children r := by
  unfold State.children
  rw [hget]
  exact List.mem_append_left _ hc

theorem mem_children_of_input (st : State) (r : Ref) (block : Block)
    (hget : st.get r = some block) (kv : String × InputInfo) (hkv : kv ∈ block.inputs)
    (ht : truthyOpt kv.2.childId = true) (c : Ref)
    (hc : st.findById (kv.2.childId.getD "") = some c) :
    c ∈ st.children r := by
  unfold State.children
  rw [hget]
  apply List.mem_append_right
  rw [List.mem_filterMap]
  exact ⟨kv, hkv, by simp [ht, hc]⟩

theorem generate_ne_overflow (st : State) (rank : Ref → Nat)
    (hrank : ∀ p c, c ∈ st.children p → rank c < rank p) (lang : String) :
    ∀ fuel r fb indent, rank r < fuel →
      generateCodeFromBlock st fuel fb r lang indent ≠ Except.error GenError.stackOverflow := by
  intro fuel
  induction fuel with
  | zero => intro r fb indent h; exact absurd h (Nat.not_lt_zero _)
  | succ n ih =>
    intro r fb indent h
    unfold generateCodeFromBlock
    cases hget : st.get r with
    | none => simp
    | some block =>
      simp only
      apply generateBody_ne_overflow
      · intro kv hkv ht c hc fb1
        have := hrank r c (mem_children_of_input st r block hget kv hkv ht c hc)
        exact ih c fb1 _ (by omega)
      · intro c hc fb1
        have := hrank r c (mem_children_of_nested st r block hget c hc)
        exact ih c fb1 _ (by omega)

theorem lookup_replaceKey {α : Type} (k : String) (v : α) (o : List (String × α))
    (h : (lookup o k).isSome = true) : lookup (replaceKey k v o) k = some v := by
  induction o with
  | nil => simp [lookup] at h
  | cons kv rest ih =>
    obtain ⟨k1, v1⟩ := kv
    by_cases hk : k1 = k
    · simp [replaceKey, lookup, hk]
    · simp only [lookup, hk, if_false] at h
      simp only [replaceKey, hk, if_false, lookup]
      exact ih h

theorem lookup_insertIndexKey {α : Type} (k : String) (v : α) (o : List (String × α))
    (h : lookup o k = none) : lookup (insertIndexKey k v o) k = some v := by
  induction o with
  | nil => simp [insertIndexKey, lookup]
  | cons kv rest ih =>
    obtain ⟨k1, v1⟩ := kv
    by_cases hk : k1 = k
    · simp [lookup, hk] at h
    · simp only [lookup, hk, if_false] at h
      unfold insertIndexKey
      split
      · simp only [lookup, hk, if_false]
        exact ih h
      · simp [lookup]

theorem lookup_append_new {α : Type} (k : String) (v : α) (o : List (String × α))
    (h : lookup o k = none) : lookup (o ++ [(k, v)]) k = some v := by
  induction o with
  | nil => simp [lookup]
  | cons kv rest ih =>
    obtain ⟨k1, v1⟩ := kv
    by_cases hk : k1 = k
    · simp [lookup, hk] at h
    · simp only [lookup, hk, if_false] at h
      simp only [List.cons_append, lookup, hk, if_false]
      exact ih h

theorem lookup_jsSet {α : Type} (k : String) (v : α) (o : List (String × α))
    (hk : k ≠ "__proto__") : lookup (jsSet o k v) k = some v := by
  unfold jsSet
  simp only [hk, if_false]
  by_cases h1 : (lookup o k).isSome = true
  · rw [if_pos h1]
    exact lookup_replaceKey k v o h1
  · have h2 : lookup o k = none := by
      cases h : lookup o k with
      | none => rfl
      | some x => simp [h] at h1
    rw [if_neg h1]
    split
    · exact lookup_insertIndexKey k v o h2
    · exact lookup_append_new k v o h2

/-! ## Code generator: template selection and function definitions -/

/-- C9 (as stated, refuted): the designer block has an entry for python, the empty
string; generation from that entry would give the empty text, but
`generateCodeFromBlock` for python gives the javascript text `beep();`. -/
theorem empty_entry_is_not_selected :
    lookup designerDef.templates "python" = some "" ∧
    (designerState.get 0).map (fun block =>
        generateBody
          (fun fb c => generateCodeFromBlock designerState 4 fb c "python" (childIndent "python" ""))
          designerState block (selectTemplateAsSpecified block.templates "python") "python" "" [])
      = some (Except.ok ("", [])) ∧
    generateCodeFromBlock designerState 5 [] 0 "python" "" = Except.ok ("beep();", []) := by
  refine ⟨?_, ?_, ?_⟩ <;> rfl

/-- C9 (amended): generation starts from the entry of the requested language when
that entry is present and not empty, else (absent or empty) from the javascript
entry when present, else from the empty string: selection is total. And when the
children of every block have a smaller rank than the block (no cycle), a call that
is allowed a depth above the rank of the block does not exhaust the stack. -/
theorem template_selection_fallback (st : State) (rank : Ref → Nat) (fuel : Nat)
    (fb : FunctionBodies) (r : Ref) (block : Block) (lang indent : String)
    (hget : st.get r = some block)
    (hrank : ∀ p c, c ∈ st.children p → rank c < rank p)
    (hfuel : rank r ≤ fuel) :
    generateCodeFromBlock st (fuel + 1) fb r lang indent
      = generateBody
          (fun fb1 c => generateCodeFromBlock st fuel fb1 c lang (childIndent lang indent))
          st block (selectTemplateAmended block.templates lang) lang indent fb ∧
    generateCodeFromBlock st (fuel + 1) fb r lang indent
      ≠ Except.error GenError.stackOverflow := by
  constructor
  · rw [generateCodeFromBlock, hget]
    dsimp only
    rw [selectTemplate_eq_amended]
  · exact generate_ne_overflow st rank hrank lang (fuel + 1) r fb indent (by omega)

/-- Witness of `template_selection_fallback`: the `repeat` container holding one
`say` block, with rank 1 for the container and 0 for the rest. -/
theorem template_selection_fallback_witness :
    generateCodeFromBlock repeatHiState 2 [] 0 "javascript" ""
      = generateBody
          (fun fb1 c => generateCodeFromBlock repeatHiState 1 fb1 c "javascript"
            (childIndent "javascript" ""))
          repeatHiState ((repeatHiState.get 0).get rfl)
          (selectTemplateAmended ((repeatHiState.get 0).get rfl).templates "javascript")
          "javascript" "" [] ∧
    generateCodeFromBlock repeatHiState 2 [] 0 "javascript" ""
      ≠ Except.error GenError.stackOverflow :=
  template_selection_fallback repeatHiState (fun r => if r = 0 then 1 else 0) 1 [] 0
    ((repeatHiState.get 0).get rfl) "javascript" ""
    (Option.some_get (rfl : (repeatHiState.get 0).isSome = true)).symm
    (by
      intro p c h
      rcases p with _ | _ | p
      · have h0 : repeatHiState.children 0 = [1] := rfl
        rw [h0] at h
        simp at h
        subst h
        decide
      · have h1 : repeatHiState.children 1 = [] := rfl
        rw [h1] at h
        simp at h
      · have h2 : repeatHiState.children (p + 2) = [] := rfl
        rw [h2] at h
        simp at h)
    (by decide)

/-- C10 (as stated, refuted): four blocks whose selected template has the shape
`name = %placeholder` with the container placeholder of the block. The block of
`emptyGreetState` has no nested children: the code returns `greet = ` and leaves the
table empty. The block with the template `greet = %then` holds a child, and its
container placeholder is `then`: the code returns its text and leaves the table
empty, since it looks for the literal `%body`. The block with the slot `b` holds a
child, and the substitution of `%b` turns its template into `greet = ody`, which is
returned. The block of `twoSayGreetState` is hoisted for python, and the table maps
`greet` to the two lines joined by a newline followed by four spaces, not by a
newline alone. -/
theorem hoisting_needs_children_and_literal_body :
    (emptyGreetState.get 0).map (fun b =>
        (b.containerVar, b.nestedBlocks, funcDefMatch (selectTemplate b.templates "javascript")))
      = some (some "body", [], some "greet") ∧
    generateCodeFromBlock emptyGreetState 5 [] 0 "javascript" ""
      = Except.ok ("greet = ", []) ∧
    ((containerHolding thenGreetDef).get 0).map (fun b =>
        (b.containerVar, b.nestedBlocks, selectTemplate b.templates "javascript"))
      = some (some "then", [1], "greet = %then") ∧
    generateCodeFromBlock (containerHolding thenGreetDef) 5 [] 0 "javascript" ""
      = Except.ok ("greet = console.log(\"hi\");", []) ∧
    ((containerHolding slotGreetDef).get 0).map (fun b =>
        (b.containerVar, b.nestedBlocks, funcDefMatch (selectTemplate b.templates "javascript")))
      = some (some "body", [1], some "greet") ∧
    generateCodeFromBlock (containerHolding slotGreetDef) 5 [] 0 "javascript" ""
      = Except.ok ("greet = ody", []) ∧
    (twoSayGreetState.get 0).map (fun b =>
        (b.containerVar, b.nestedBlocks, funcDefMatch (selectTemplate b.templates "python")))
      = some (some "body", [1, 2], some "greet") ∧
    generateCodeFromBlock twoSayGreetState 5 [] 0 "python" ""
      = Except.ok ("", [("greet", "console.log(1);\n    console.log(2);")]) ∧
    joinWith "\n" ["console.log(1);", "console.log(2);"]
      = "console.log(1);\nconsole.log(2);" := by
  refine ⟨?_, ?_, ?_, ?_, ?_, ?_, ?_, ?_, ?_⟩ <;> rfl

/-- C10 (amended): let the template of a block, after the substitution of its
inputs, match `name = %body` (a word, optional white space, `=`, optional white
space, the literal `%body`), and let `J` be the code of its nested children joined by
a newline, for python by a newline and the indentation. If `J` is not empty,
`generateCodeFromBlock` returns the empty string and assigns `J` to
`functionBodies[name]`; for every name but `__proto__` the table then maps the name
to `J`. If `J` is empty, as it is for a block with no nested children, the block is
not hoisted: whatever the call returns, the table is the one left by the inputs and
the nested blocks, and unless the text of the template is a key of the table or the
name of a member of `Object.prototype`, the call returns that text with `%body`
replaced by the empty string. -/
theorem function_definition_is_hoisted (st : State) (fuel : Nat) (fb : FunctionBodies)
    (r : Ref) (block : Block) (lang indent : String) (inputs : List (String × String))
    (fb1 : FunctionBodies) (codes : List String) (fb2 : FunctionBodies) (name : String)
    (hget : st.get r = some block)
    (hin : gatherInputs
        (fun t c => generateCodeFromBlock st fuel t c lang (childIndent lang indent))
        st block.inputs [] fb = Except.ok (inputs, fb1))
    (hnest : genNested
        (fun t c => generateCodeFromBlock st fuel t c lang (childIndent lang indent))
        block.nestedBlocks fb1 = Except.ok (codes, fb2))
    (hshape : funcDefMatch (substituteInputs (selectTemplate block.templates lang) inputs)
        = some name) :
    (joinWith (nestedSeparator lang indent) codes ≠ "" →
      generateCodeFromBlock st (fuel + 1) fb r lang indent
        = Except.ok ("", jsSet fb2 name (joinWith (nestedSeparator lang indent) codes)) ∧
      (name ≠ "__proto__" →
        lookup (jsSet fb2 name (joinWith (nestedSeparator lang indent) codes)) name
          = some (joinWith (nestedSeparator lang indent) codes))) ∧
    (block.nestedBlocks = [] →
      joinWith (nestedSeparator lang indent) codes = "" ∧ fb2 = fb1) ∧
    (joinWith (nestedSeparator lang indent) codes = "" →
      (∀ text table, generateCodeFromBlock st (fuel + 1) fb r lang indent
          = Except.ok (text, table) → table = fb2) ∧
      (lookup fb2 (jsTrim (substituteInputs (selectTemplate block.templates lang) inputs))
          = none →
        objectPrototypeKeys.contains
          (jsTrim (substituteInputs (selectTemplate block.templates lang) inputs)) = false →
        generateCodeFromBlock st (fuel + 1) fb r lang indent
          = Except.ok (expandAndClean block
              (substituteInputs (selectTemplate block.templates lang) inputs) "", fb2))) := by
  have hfin : generateCodeFromBlock st (fuel + 1) fb r lang indent
      = finishTemplate block (substituteInputs (selectTemplate block.templates lang) inputs)
          (joinWith (nestedSeparator lang indent) codes) fb2 := by
    rw [generateCodeFromBlock, hget]
    dsimp only
    simp only [generateBody, hin, hnest]
  refine ⟨?_, ?_, ?_⟩
  · intro hbody
    constructor
    · have ht : truthy (joinWith (nestedSeparator lang indent) codes) = true := by
        cases h : truthy (joinWith (nestedSeparator lang indent) codes) with
        | true => rfl
        | false => exact absurd ((truthy_eq_false_iff _).1 h) hbody
      rw [hfin]
      simp only [finishTemplate, hshape, ht]
    · intro hname
      exact lookup_jsSet name _ fb2 hname
  · intro hnil
    rw [hnil] at hnest
    simp only [genNested, Except.ok.injEq, Prod.mk.injEq] at hnest
    obtain ⟨hc, hf⟩ := hnest
    subst hc
    exact ⟨rfl, hf.symm⟩
  · intro hempty
    have ht : truthy (joinWith (nestedSeparator lang indent) codes) = false := by
      rw [hempty]
      rfl
    rw [hfin, hempty] at *
    constructor
    · intro text table hres
      unfold finishTemplate at hres
      have ht0 : truthy "" = false := rfl
      simp only [hshape, ht0] at hres
      cases hg : tableGet fb2
          (jsTrim (substituteInputs (selectTemplate block.templates lang) inputs)) with
      | undefined =>
        simp only [hg, Except.ok.injEq, Prod.mk.injEq] at hres
        exact hres.2.symm
      | text v =>
        simp only [hg] at hres
        by_cases hv : truthy v = true
        · simp only [hv, if_true, Except.ok.injEq, Prod.mk.injEq] at hres
          exact hres.2.symm
        · simp only [hv, Except.ok.injEq, Prod.mk.injEq] at hres
          simp at hres
          exact hres.2.symm
      | inherited =>
        simp only [hg] at hres
        cases hres
    · intro hnone hproto
      have ht0 : truthy "" = false := rfl
      unfold finishTemplate tableGet expandAndClean
      simp only [hshape, ht0, hnone, hproto]
      rfl

/-- Witness of `function_definition_is_hoisted`: the block `greet = %body` with one
nested `say "hi"` is hoisted, and the same block with no nested children is not: the
table stays empty and the text `greet = ` is returned. -/
theorem function_definition_is_hoisted_witness :
    (generateCodeFromBlock greetState 5 [] 0 "javascript" ""
        = Except.ok ("", jsSet [] "greet" (joinWith (nestedSeparator "javascript" "")
            ["console.log(\"hi\");"])) ∧
      ("greet" ≠ "__proto__" →
        lookup (jsSet [] "greet" (joinWith (nestedSeparator "javascript" "")
            ["console.log(\"hi\");"])) "greet"
          = some (joinWith (nestedSeparator "javascript" "") ["console.log(\"hi\");"]))) ∧
    (joinWith (nestedSeparator "javascript" "") [] = "" ∧ ([] : FunctionBodies) = []) ∧
    (∀ text table, generateCodeFromBlock emptyGreetState 5 [] 0 "javascript" ""
        = Except.ok (text, table) → table = []) ∧
    generateCodeFromBlock emptyGreetState 5 [] 0 "javascript" ""
      = Except.ok (expandAndClean ((emptyGreetState.get 0).get rfl)
          (substituteInputs
            (selectTemplate ((emptyGreetState.get 0).get rfl).templates "javascript") []) "",
          []) :=
  ⟨(function_definition_is_hoisted greetState 4 [] 0 ((greetState.get 0).get rfl)
      "javascript" "" [] [] ["console.log(\"hi\");"] [] "greet"
      (Option.some_get (rfl : (greetState.get 0).isSome = true)).symm rfl rfl rfl).1
      (by decide),
    (function_definition_is_hoisted emptyGreetState 4 [] 0 ((emptyGreetState.get 0).get rfl)
      "javascript" "" [] [] [] [] "greet"
      (Option.some_get (rfl : (emptyGreetState.get 0).isSome = true)).symm rfl rfl rfl).2.1
      rfl,
    ((function_definition_is_hoisted emptyGreetState 4 [] 0 ((emptyGreetState.get 0).get rfl)
      "javascript" "" [] [] [] [] "greet"
      (Option.some_get (rfl : (emptyGreetState.get 0).isSome = true)).symm rfl rfl rfl).2.2
      rfl).1,
    ((function_definition_is_hoisted emptyGreetState 4 [] 0 ((emptyGreetState.get 0).get rfl)
      "javascript" "" [] [] [] [] "greet"
      (Option.some_get (rfl : (emptyGreetState.get 0).isSome = true)).symm rfl rfl rfl).2.2
      rfl).2 rfl rfl⟩

/-! ## Function calls, imports, labels, positions, snap order and export -/

/-- C11 (as stated, refuted): in a run the block `G` registers the body of `greet`;
the `call` block comes next and its substituted template text is `greet` followed by
a space, which is no key of the table, yet `generateCodeFromBlock` returns the stored
body for it: the lookup trims the text. -/
theorem call_text_is_trimmed_before_lookup :
    ((callState "greet ").get 2).map (fun b =>
        substituteInputs (selectTemplate b.templates "javascript") [("f", "greet ")])
      = some "greet " ∧
    lookup [("greet", "console.log(\"hi\");")] "greet " = none ∧
    generateCodeFromBlock (callState "greet ") 5 [("greet", "console.log(\"hi\");")] 2
        "javascript" ""
      = Except.ok ("console.log(\"hi\");", [("greet", "console.log(\"hi\");")]) ∧
    generateBtnOnclick 6 (callState "greet ") "javascript"
      = Except.ok ("\nconsole.log(\"hi\");", [("greet", "console.log(\"hi\");")]) := by
  refine ⟨?_, ?_, ?_, ?_⟩ <;> rfl

/-- C11 (amended): for a block that is not itself hoisted as a function definition,
with `T` its template after the substitution of its inputs and `fb2` the function
table after its inputs and nested blocks were generated: if `fb2` holds a non-empty
body under the trimmed text of `T`, `generateCodeFromBlock` returns exactly that
body; if the trimmed text is neither a key of `fb2` nor the name of a member of
`Object.prototype`, it returns the text of `T` itself, with the container placeholder
replaced and the quotes cleaned up. The table is left as it is in both cases. -/
theorem function_call_expansion (st : State) (fuel : Nat) (fb : FunctionBodies)
    (r : Ref) (block : Block) (lang indent : String) (inputs : List (String × String))
    (fb1 : FunctionBodies) (codes : List String) (fb2 : FunctionBodies)
    (hget : st.get r = some block)
    (hin : gatherInputs
        (fun t c => generateCodeFromBlock st fuel t c lang (childIndent lang indent))
        st block.inputs [] fb = Except.ok (inputs, fb1))
    (hnest : genNested
        (fun t c => generateCodeFromBlock st fuel t c lang (childIndent lang indent))
        block.nestedBlocks fb1 = Except.ok (codes, fb2))
    (hnodef : funcDefMatch (substituteInputs (selectTemplate block.templates lang) inputs)
        = none ∨ truthy (joinWith (nestedSeparator lang indent) codes) = false) :
    (∀ body, lookup fb2 (jsTrim (substituteInputs (selectTemplate block.templates lang) inputs))
        = some body → body ≠ "" →
      generateCodeFromBlock st (fuel + 1) fb r lang indent = Except.ok (body, fb2)) ∧
    (lookup fb2 (jsTrim (substituteInputs (selectTemplate block.templates lang) inputs))
        = none →
      objectPrototypeKeys.contains
        (jsTrim (substituteInputs (selectTemplate block.templates lang) inputs)) = false →
      generateCodeFromBlock st (fuel + 1) fb r lang indent
        = Except.ok (expandAndClean block
            (substituteInputs (selectTemplate block.templates lang) inputs)
            (joinWith (nestedSeparator lang indent) codes), fb2)) := by
  have hfin : ∀ res,
      finishTemplate block (substituteInputs (selectTemplate block.templates lang) inputs)
        (joinWith (nestedSeparator lang indent) codes) fb2 = res →
      generateCodeFromBlock st (fuel + 1) fb r lang indent = res := by
    intro res hres
    rw [generateCodeFromBlock, hget]
    dsimp only
    simp only [generateBody, hin, hnest, hres]
  constructor
  · intro body hbody hne
    apply hfin
    have ht : truthy body = true := by
      cases h : truthy body with
      | true => rfl
      | false => exact absurd ((truthy_eq_false_iff _).1 h) hne
    unfold finishTemplate tableGet
    rcases hnodef with h | h
    · simp only [h, hbody, ht, if_true]
    · cases hm : funcDefMatch (substituteInputs (selectTemplate block.templates lang) inputs) <;>
        simp only [h, hbody, ht, if_true]
  · intro hnone hproto
    apply hfin
    unfold finishTemplate tableGet expandAndClean
    rcases hnodef with h | h
    · simp only [h, hnone, hproto]
      rfl
    · cases hm : funcDefMatch (substituteInputs (selectTemplate block.templates lang) inputs) <;>
        simp only [h, hnone, hproto] <;> rfl

/-- Witness of `function_call_expansion`: the `call` block with the literal `greet`
followed by a space, generated with the table left by the block `G`. -/
theorem function_call_expansion_witness :
    (∀ body, lookup [("greet", "console.log(\"hi\");")]
        (jsTrim (substituteInputs
          (selectTemplate (((callState "greet ").get 2).get rfl).templates "javascript")
          [("f", "greet ")])) = some body → body ≠ "" →
      generateCodeFromBlock (callState "greet ") 5 [("greet", "console.log(\"hi\");")] 2
          "javascript" ""
        = Except.ok (body, [("greet", "console.log(\"hi\");")])) ∧
    (lookup [("greet", "console.log(\"hi\");")]
        (jsTrim (substituteInputs
          (selectTemplate (((callState "greet ").get 2).get rfl).templates "javascript")
          [("f", "greet ")])) = none →
      objectPrototypeKeys.contains
        (jsTrim (substituteInputs
          (selectTemplate (((callState "greet ").get 2).get rfl).templates "javascript")
          [("f", "greet ")])) = false →
      generateCodeFromBlock (callState "greet ") 5 [("greet", "console.log(\"hi\");")] 2
          "javascript" ""
        = Except.ok (expandAndClean (((callState "greet ").get 2).get rfl)
            (substituteInputs
              (selectTemplate (((callState "greet ").get 2).get rfl).templates "javascript")
              [("f", "greet ")])
            (joinWith (nestedSeparator "javascript" "") []),
            [("greet", "console.log(\"hi\");")])) :=
  function_call_expansion (callState "greet ") 4 [("greet", "console.log(\"hi\");")] 2
    (((callState "greet ").get 2).get rfl) "javascript" "" [("f", "greet ")]
    [("greet", "console.log(\"hi\");")] [] [("greet", "console.log(\"hi\");")]
    (Option.some_get (rfl : ((callState "greet ").get 2).isSome = true)).symm rfl rfl
    (Or.inl rfl)

/-- C14 (as stated, refuted): the import of a file whose `blockDefs` array holds an
object without a label reports failure, and the definition list, which was
`[plusDef]`, is then that array; the registry is as before. And with the snapshot
`inheritedNameRecords` in the storage, the import of a file that carries an empty
array of records reports failure after the registry `[CUR]` was replaced: the loader
rebuilds `D` and `S` from the storage and stops, and the save that ends the handler
throws on the member left in `nestedBlocks` of `D`. -/
theorem failed_import_is_not_atomic :
    beforeImportState.blockDefs = [some plusDef] ∧
    (importFileOnload (fun _ => "fresh") beforeImportState malformedDefsFile).2 = false ∧
    (importFileOnload (fun _ => "fresh") beforeImportState malformedDefsFile).1.blockDefs
      = [none] ∧
    (importFileOnload (fun _ => "fresh") beforeImportState malformedDefsFile).1.ids
      = beforeImportState.ids ∧
    brokenSnapshotState.ids = ["CUR"] ∧
    (importFileOnload (fun _ => "fresh") brokenSnapshotState emptyRecordsFile).2 = false ∧
    (importFileOnload (fun _ => "fresh") brokenSnapshotState emptyRecordsFile).1.ids
      = ["D", "S"] ∧
    serializeWorkspace (importFileOnload (fun _ => "fresh") brokenSnapshotState emptyRecordsFile).1
      = none := by
  refine ⟨?_, ?_, ?_, ?_, ?_, ?_, ?_, ?_⟩ <;> rfl

/-- C14 (amended): when the text of the import file is not valid JSON, or is `null`,
or carries a `blockDefs` array with an entry on which the palette cannot be built,
the handler reports failure, and the registry (the elements and the array `blocks`)
and the storage are as before the import; the definition list is as before too when
the text is not valid JSON or is `null`, and otherwise it is the `blockDefs` array of
the file, assigned before the failure. The handler reports no other failure, except
when the save that ends it throws, and then a save of the registry it leaves throws
again. -/
theorem import_failure_before_rebuild_keeps_registry (uuid : Nat → String) (st : State)
    (file : ImportFile) :
    ((file = ImportFile.invalidJson ∨ file = ImportFile.null ∨
        ∃ d, file = ImportFile.data d ∧ (d.blockDefs.getD []).any (fun e => e.isNone) = true) →
      (importFileOnload uuid st file).2 = false ∧
      (importFileOnload uuid st file).1.heap = st.heap ∧
      (importFileOnload uuid st file).1.blocks = st.blocks ∧
      (importFileOnload uuid st file).1.storage = st.storage ∧
      ((file = ImportFile.invalidJson ∨ file = ImportFile.null) →
        (importFileOnload uuid st file).1 = st) ∧
      (∀ d, file = ImportFile.data d →
        some (importFileOnload uuid st file).1.blockDefs = d.blockDefs)) ∧
    ((importFileOnload uuid st file).2 = false →
      serializeWorkspace (importFileOnload uuid st file).1 ≠ none →
      (file = ImportFile.invalidJson ∨ file = ImportFile.null ∨
        ∃ d, file = ImportFile.data d ∧
          (d.blockDefs.getD []).any (fun e => e.isNone) = true)) := by
  constructor
  · intro hcause
    rcases hcause with h | h | ⟨d, h, hbad⟩
    · subst h
      simp [importFileOnload]
    · subst h
      simp [importFileOnload]
    · subst h
      unfold importFileOnload
      simp only [hbad, if_true]
      cases hd : d.blockDefs with
      | none => simp [hd] at hbad
      | some defs => simp [hd]
  · intro hfail hsave
    cases file with
    | invalidJson => exact Or.inl rfl
    | null => exact Or.inr (Or.inl rfl)
    | data d =>
      refine Or.inr (Or.inr ⟨d, rfl, ?_⟩)
      by_cases hbad : ((d.blockDefs.getD []).any (fun e => e.isNone)) = true
      · exact hbad
      · exfalso
        unfold importFileOnload at hfail hsave
        simp only [hbad] at hfail hsave
        revert hfail hsave
        generalize
          (match d.blockStates with
            | some _ => (loadWorkspaceFromStorage uuid
                (match d.blockDefs with
                  | some defs => { st with blockDefs := defs }
                  | none => st)).1
            | none =>
              (match d.blockDefs with
                | some defs => { st with blockDefs := defs }
                | none => st)) = st2
        intro hfail hsave
        cases hs : serializeWorkspace st2 with
        | none =>
          simp only [hs] at hsave
          exact hsave hs
        | some saved =>
          simp only [hs] at hfail
          simp at hfail

/-- Witness of `import_failure_before_rebuild_keeps_registry`: the file with a
definition without a label, imported in `beforeImportState`. -/
theorem import_failure_before_rebuild_keeps_registry_witness :
    (importFileOnload (fun _ => "fresh") beforeImportState malformedDefsFile).2 = false ∧
    (importFileOnload (fun _ => "fresh") beforeImportState malformedDefsFile).1.heap
      = beforeImportState.heap ∧
    (importFileOnload (fun _ => "fresh") beforeImportState malformedDefsFile).1.blocks
      = beforeImportState.blocks ∧
    (importFileOnload (fun _ => "fresh") beforeImportState malformedDefsFile).1.storage
      = beforeImportState.storage ∧
    ((malformedDefsFile = ImportFile.invalidJson ∨ malformedDefsFile = ImportFile.null) →
      (importFileOnload (fun _ => "fresh") beforeImportState malformedDefsFile).1
        = beforeImportState) ∧
    (∀ d, malformedDefsFile = ImportFile.data d →
      some (importFileOnload (fun _ => "fresh") beforeImportState malformedDefsFile).1.blockDefs
        = d.blockDefs) :=
  (import_failure_before_rebuild_keeps_registry (fun _ => "fresh") beforeImportState
    malformedDefsFile).1 (Or.inr (Or.inr ⟨_, rfl, rfl⟩))

/-- C15: the registry holds `CUR`, the storage a snapshot of `OLD` saved with the
definition `sayDef`; the import of a well formed file carrying the definition
`repeatDef` and the instance `NEW` reports success, and afterwards the registry
consists of `OLD` and the definition list is `[sayDef]`: the loader in force ignores
the payload and rebuilds both from the storage. -/
theorem import_rebuilds_from_storage_instead_of_payload :
    beforeImportState.ids = ["CUR"] ∧
    (importFileOnload (fun _ => "fresh") beforeImportState importedProject).2 = true ∧
    (importFileOnload (fun _ => "fresh") beforeImportState importedProject).1.ids = ["OLD"] ∧
    (importFileOnload (fun _ => "fresh") beforeImportState importedProject).1.blockDefs
      = [some sayDef] := by
  refine ⟨?_, ?_, ?_, ?_⟩ <;> rfl

/-- C16: the label `say %text` gives the one key `text`, but the label `% done`,
in which no `%` is followed by a word character, gives the key ` done` (with a
leading space): `createBlock` takes every part that starts with `%` for an input. -/
theorem text_part_starting_with_percent_becomes_input :
    placeholderNames sayDef.label.data = ["text"] ∧
    (createBlock sayDef none "fresh").inputs = [("text", { value := "", childId := none })] ∧
    placeholderNames percentDoneDef.label.data = [] ∧
    parseLabel percentDoneDef.label = ["% done"] ∧
    (createBlock percentDoneDef none "fresh").inputs
      = [(" done", { value := "", childId := none })] := by
  refine ⟨?_, ?_, ?_, ?_, ?_⟩ <;> rfl

/-- C18: the position given by `detachFromParent` is the composed position minus
the screen offset of the workspace, so the two agree only when the workspace sits at
the origin of the screen. With the workspace at (200, 50), a block at (0, 40) in the
body group (10, 34) of a container at (100, 100) has the composed position
(110, 174) and is moved to (-90, 124). -/
theorem detach_shifts_by_workspace_offset (workspaceOffset own : Int × Int)
    (ancestors : List (Int × Int)) :
    (detachTransform workspaceOffset own ancestors = getCTM own ancestors
      ↔ workspaceOffset = (0, 0)) ∧
    getCTM (0, 40) [(10, 34), (100, 100)] = (110, 174) ∧
    detachTransform (200, 50) (0, 40) [(10, 34), (100, 100)] = (-90, 124) := by
  refine ⟨?_, by decide, by decide⟩
  obtain ⟨ox, oy⟩ := workspaceOffset
  unfold detachTransform screenToWorkspace
  generalize getCTM own ancestors = p
  obtain ⟨px, py⟩ := p
  simp only [Prod.mk.injEq]
  constructor
  · rintro ⟨h1, h2⟩
    exact ⟨by omega, by omega⟩
  · rintro ⟨h1, h2⟩
    subst h1
    subst h2
    exact ⟨by omega, by omega⟩

/-- C19: `C` is nested in `D` and the pointer (100, 100) lies in the enlarged inner
rectangles of both. With `D` before `C` in the registry `findSnapTarget` returns the
outer container `D`, and the released block is nested in `D`, not in `C`; with `C`
before `D` it returns `C`: the first match in registry order wins. -/
theorem first_container_in_registry_wins :
    (outerFirstState.ids, outerFirstState.nestedIdsOf "D") = (["D", "C", "S"], ["C"]) ∧
    findSnapTarget nestedContainersGeometry
        (blockDragMove (blockDragStart outerFirstState 2) (100, 100)) (100, 100) 2
      = some (SnapTarget.container 0) ∧
    (dragSession nestedContainersGeometry 8 outerFirstState 2 (100, 100)).map (fun st =>
        (st.nestedIdsOf "D", st.nestedIdsOf "C", st.parentFields "S"))
      = some (["C", "S"], [], some (some "D", none)) ∧
    (innerFirstState.ids, innerFirstState.nestedIdsOf "D") = (["C", "D", "S"], ["C"]) ∧
    findSnapTarget innerFirstGeometry
        (blockDragMove (blockDragStart innerFirstState 2) (100, 100)) (100, 100) 2
      = some (SnapTarget.container 0) := by
  refine ⟨?_, ?_, ?_, ?_, ?_⟩ <;> rfl

/-- C20: the action `export-project` downloads nothing, for every state and
language: the handler stops at the call of `generateCode`, which nothing defines. The
action `export-workspace` on the same state does download the records, and the bundle
the specification describes exists for a block `say x`. -/
theorem export_project_produces_no_bundle (st : State) (lang : String) :
    (exportMenuChange st "export-project" lang).2 = none ∧
    (serializeWorkspace (sayState "x")).isSome = true ∧
    (exportMenuChange (sayState "x") "export-workspace" "javascript").2
      = (serializeWorkspace (sayState "x")).map
          (fun serialized => ExportData.workspace (serialized.2.blockStates.getD [])) ∧
    (projectBundleAsSpecified 5 (sayState "x") "javascript").isSome = true := by
  refine ⟨?_, ?_, ?_, ?_⟩
  · unfold exportMenuChange
    cases serializeWorkspace st <;> rfl
  · rfl
  · rfl
  · rfl

/-! ## Lemmas on states -/

theorem modifyAt_getElem (f : Block → Block) (l : List HeapObj) (r i : Nat) :
    elementAt (modifyAt f l r) i = if i = r then (elementAt l i).map f else elementAt l i := by
  induction l generalizing r i with
  | nil => cases r <;> simp [modifyAt, elementAt]
  | cons o rest ih =>
    cases r with
    | zero =>
      cases i with
      | zero => cases o <;> simp [modifyAt, elementAt]
      | succ j => cases o <;> simp [modifyAt, elementAt]
    | succ k =>
      cases i with
      | zero => cases o <;> simp [modifyAt, elementAt]
      | succ j =>
        simp only [modifyAt, elementAt]
        rw [ih]
        simp

theorem State.get_modify (st : State) (r : Ref) (f : Block → Block) (i : Ref) :
    (st.modify r f).get i = if i = r then (st.get i).map f else st.get i := by
  unfold State.modify State.get
  exact modifyAt_getElem f st.heap r i

theorem findById_congr (st st2 : State) (hb : st2.blocks = st.blocks)
    (hid : ∀ r, (st2.get r).map (fun b => b.id) = (st.get r).map (fun b => b.id))
    (id : String) : st2.findById id = st.findById id := by
  unfold State.findById
  rw [hb]
  congr 1
  funext r
  have h := hid r
  cases h1 : st2.get r <;> cases h2 : st.get r <;> simp [h1, h2] at h ⊢
  rw [h]

theorem findById_modify (st : State) (r : Ref) (f : Block → Block)
    (hf : ∀ b, (f b).id = b.id) (id : String) :
    (st.modify r f).findById id = st.findById id := by
  apply findById_congr
  · rfl
  · intro i
    rw [State.get_modify]
    by_cases h : i = r
    · simp only [h, if_true]
      cases st.get r <;> simp [hf]
    · simp only [h, if_false]

/-! ## Generation reads only the graph -/

theorem gatherInputs_congr (gen : FunctionBodies → Ref → GenResult) (st st2 : State)
    (hfind : ∀ id, st2.findById id = st.findById id)
    (inputs : List (String × InputInfo)) :
    ∀ acc fb, gatherInputs gen st2 inputs acc fb = gatherInputs gen st inputs acc fb := by
  induction inputs with
  | nil => intro acc fb; rfl
  | cons kv rest ih =>
    obtain ⟨vn, info⟩ := kv
    intro acc fb
    unfold gatherInputs
    rw [hfind]
    simp only [ih]

theorem generate_congr (st st2 : State) (hb : st2.blocks = st.blocks)
    (hview : ∀ r, (st2.get r).map Block.view = (st.get r).map Block.view) :
    ∀ fuel, generateCodeFromBlock st2 fuel = generateCodeFromBlock st fuel := by
  have hfind : ∀ id, st2.findById id = st.findById id := by
    apply findById_congr st st2 hb
    intro r
    have h := hview r
    cases h1 : st2.get r <;> cases h2 : st.get r <;> simp [h1, h2, Block.view] at h ⊢
    exact h.1
  intro fuel
  induction fuel with
  | zero => funext fb r lang indent; rfl
  | succ n ih =>
    funext fb r lang indent
    unfold generateCodeFromBlock
    have h := hview r
    cases h1 : st2.get r with
    | none =>
      cases h2 : st.get r with
      | none => rfl
      | some b => simp [h1, h2] at h
    | some b2 =>
      cases h2 : st.get r with
      | none => simp [h1, h2] at h
      | some b =>
        simp only [h1, h2, Option.map_some', Option.some.injEq, Block.view, Prod.mk.injEq] at h
        obtain ⟨_, ht, hc, hi, hn⟩ := h
        dsimp only
        unfold generateBody finishTemplate
        rw [ih, ht, hc, hi, hn]
        simp only [gatherInputs_congr _ st st2 hfind]

/-! ## Top-level emission -/

theorem genNested_filter_roots (gen : FunctionBodies → Ref → GenResult) (st : State)
    (l : List Ref) :
    ∀ fb, genNested gen (l.filter (isRoot st)) fb = emitInRegistryOrder gen st l fb := by
  induction l with
  | nil => intro fb; rfl
  | cons r rest ih =>
    intro fb
    unfold emitInRegistryOrder
    by_cases h : isRoot st r = true
    · simp only [List.filter_cons, h, if_true]
      unfold genNested
      cases gen fb r with
      | error e => rfl
      | ok v =>
        obtain ⟨code, fb1⟩ := v
        simp only [ih]
    · simp only [List.filter_cons, h]
      exact ih fb

/-- C12: the text of a generation run (and the table it leaves, or its failure) is
the one obtained by walking the registry in order from an empty table, generating
every block whose parent fields are empty and passing over the others, and joining
the parts by newlines. -/
theorem generation_run_emits_roots_in_registry_order (fuel : Nat) (st : State)
    (lang : String) :
    generateBtnOnclick fuel st lang = topLevelTextAsSpecified fuel st lang := by
  unfold generateBtnOnclick topLevelTextAsSpecified
  have hroots : rootBlocks { st with functionBodies := [] } = st.blocks.filter (isRoot st) := rfl
  have hgen : generateCodeFromBlock { st with functionBodies := [] } fuel
      = generateCodeFromBlock st fuel :=
    generate_congr st { st with functionBodies := [] } rfl (fun _ => rfl) fuel
  simp only [hroots, hgen, genNested_filter_roots]

/-! ## Attach followed by detach -/

theorem replaceKey_replaceKey_of_lookup {α : Type} (k : String) (x y : α)
    (l : List (String × α)) (h : lookup l k = some x) :
    replaceKey k x (replaceKey k y l) = l := by
  induction l with
  | nil => simp [lookup] at h
  | cons kv rest ih =>
    obtain ⟨k1, v1⟩ := kv
    by_cases hk : k1 = k
    · simp only [lookup, hk, if_true, Option.some.injEq] at h
      simp [replaceKey, hk, h]
    · simp only [lookup, hk, if_false] at h
      simp only [replaceKey, hk, if_false]
      rw [ih h]

theorem domContains_self (st : State) (a : Ref) (n : Nat) : domContains st a n a = true := by
  cases n <;> simp [domContains]

theorem detachFromParent_of_parentless (st : State) (c : Ref) (cb : Block)
    (hc : st.get c = some cb) (h1 : truthyOpt cb.parentBlock = false)
    (h2 : cb.parentInput = none) : detachFromParent st c = st := by
  unfold detachFromParent
  simp [hc, h1, h2]

theorem detachFromParent_of_input (s : State) (c p : Ref) (b : Block) (pid v : String)
    (hget : s.get c = some b) (hpi : b.parentInput = some (pid, v))
    (hfind : s.findById pid = some p) :
    detachFromParent s c
      = ((s.modify p (fun x => { x with inputs := clearSlot v x.inputs })).modify c
          (fun x => { x with parentInput := none, parentBlock := none })).modify c
          (fun x => { x with domParent := DomParent.workspace }) := by
  unfold detachFromParent
  simp [hget, hpi, hfind]

theorem attachThenDetach_get (st : State) (c p : Ref) (v : String) (pb cb : Block)
    (L : String) (hP : st.get p = some pb)
    (hslot : lookup pb.inputs v = some { value := L, childId := none })
    (hfind : st.findById pb.id = some p) (hc : st.get c = some cb)
    (hpar1 : truthyOpt cb.parentBlock = false) (hpar2 : cb.parentInput = none) (r : Ref) :
    (attachThenDetach st c p v).get r = st.get r ∨
    (r = c ∧ (attachThenDetach st c p v).get r
      = some { cb with parentBlock := none, parentInput := none,
                       domParent := DomParent.workspace }) := by
  have hdet : detachFromParent st c = st :=
    detachFromParent_of_parentless st c cb hc hpar1 hpar2
  unfold attachThenDetach snapToInput
  rw [hdet]
  simp only [hP, hslot]
  by_cases hdom : domContains st c st.heap.length p = true
  · simp only [hdom, if_true]
    rw [hdet]
    exact Or.inl rfl
  · have hne : c ≠ p := by
      intro h
      apply hdom
      rw [h]
      exact domContains_self st p _
    simp only [hdom, hc, Bool.false_eq_true, if_false]
    have hne2 : p ≠ c := fun h => hne h.symm
    rw [detachFromParent_of_input _ c p
      { cb with domParent := DomParent.inside p, parentInput := some (pb.id, v),
                parentBlock := some pb.id } pb.id v]
    · by_cases hrc : r = c
      · right
        refine ⟨hrc, ?_⟩
        subst hrc
        simp [State.get_modify, hne, hc]
      · left
        by_cases hrp : r = p
        · subst hrp
          simp only [State.get_modify, hrc, if_false, if_true, hP, Option.map_some']
          have hl : lookup (replaceKey v { value := L, childId := some cb.id } pb.inputs) v
              = some { value := L, childId := some cb.id } :=
            lookup_replaceKey v _ pb.inputs (by rw [hslot]; rfl)
          simp only [clearSlot, hl]
          rw [replaceKey_replaceKey_of_lookup v _ _ pb.inputs hslot]
        · simp [State.get_modify, hrc, hrp]
    · simp [State.get_modify, hne, hc]
    · rfl
    · refine (findById_modify _ _ _ ?_ _).trans ((findById_modify _ _ _ ?_ _).trans
        ((findById_modify _ _ _ ?_ _).trans hfind)) <;> intro b <;> rfl

theorem attachThenDetach_blocks (st : State) (c p : Ref) (v : String) (pb cb : Block)
    (L : String) (hP : st.get p = some pb)
    (hslot : lookup pb.inputs v = some { value := L, childId := none })
    (hfind : st.findById pb.id = some p) (hc : st.get c = some cb)
    (hpar1 : truthyOpt cb.parentBlock = false) (hpar2 : cb.parentInput = none) :
    (attachThenDetach st c p v).blocks = st.blocks := by
  have hdet : detachFromParent st c = st :=
    detachFromParent_of_parentless st c cb hc hpar1 hpar2
  unfold attachThenDetach snapToInput
  rw [hdet]
  simp only [hP, hslot]
  by_cases hdom : domContains st c st.heap.length p = true
  · simp only [hdom, if_true]
    rw [hdet]
  · have hne : c ≠ p := by
      intro h
      apply hdom
      rw [h]
      exact domContains_self st p _
    simp only [hdom, hc, Bool.false_eq_true, if_false]
    rw [detachFromParent_of_input _ c p
      { cb with domParent := DomParent.inside p, parentInput := some (pb.id, v),
                parentBlock := some pb.id } pb.id v]
    · rfl
    · simp [State.get_modify, hne, hc]
    · rfl
    · refine (findById_modify _ _ _ ?_ _).trans ((findById_modify _ _ _ ?_ _).trans
        ((findById_modify _ _ _ ?_ _).trans hfind)) <;> intro b <;> rfl

/-- C17: for a block `p` of the registry (found under its id) whose slot `v` is
empty with literal `L`, and a parentless block `c`, the call `snapToInput(c, p, v)`
followed by `detachFromParent(c)` leaves the slot `v` of `p` with `childId` null and
literal `L`, leaves `c` parentless, leaves the registry order and, for every
element, the id, templates, container placeholder, inputs and nested blocks as they
were, and `generateCodeFromBlock(p)` returns what it returned before. -/
theorem attach_then_detach_restores_slot (st : State) (c p : Ref) (v : String)
    (pb cb : Block) (L : String) (hP : st.get p = some pb)
    (hslot : lookup pb.inputs v = some { value := L, childId := none })
    (hfind : st.findById pb.id = some p) (hc : st.get c = some cb)
    (hpar1 : truthyOpt cb.parentBlock = false) (hpar2 : cb.parentInput = none) :
    ((attachThenDetach st c p v).get p).bind (fun b => lookup b.inputs v)
      = some { value := L, childId := none } ∧
    ((attachThenDetach st c p v).get c).map (fun b => (truthyOpt b.parentBlock, b.parentInput))
      = some (false, none) ∧
    (attachThenDetach st c p v).blocks = st.blocks ∧
    (∀ r, ((attachThenDetach st c p v).get r).map Block.view = (st.get r).map Block.view) ∧
    (∀ fuel fb lang indent,
      generateCodeFromBlock (attachThenDetach st c p v) fuel fb p lang indent
        = generateCodeFromBlock st fuel fb p lang indent) := by
  have hget := attachThenDetach_get st c p v pb cb L hP hslot hfind hc hpar1 hpar2
  have hblocks := attachThenDetach_blocks st c p v pb cb L hP hslot hfind hc hpar1 hpar2
  have hview : ∀ r, ((attachThenDetach st c p v).get r).map Block.view
      = (st.get r).map Block.view := by
    intro r
    rcases hget r with h | ⟨hr, h⟩
    · rw [h]
    · rw [h, hr, hc]
      rfl
  refine ⟨?_, ?_, hblocks, hview, ?_⟩
  · have h := hview p
    rw [hP] at h
    cases hq : (attachThenDetach st c p v).get p with
    | none => simp [hq] at h
    | some b =>
      simp only [hq, Option.map_some', Option.some.injEq, Block.view, Prod.mk.injEq] at h
      simp only [Option.bind]
      rw [h.2.2.2.1]
      exact hslot
  · rcases hget c with h | ⟨_, h⟩
    · rw [h, hc]
      simp [hpar1, hpar2]
    · rw [h]
      rfl
  · intro fuel fb lang indent
    rw [generate_congr st (attachThenDetach st c p v) hblocks hview fuel]

/-- Witness of `attach_then_detach_restores_slot`: the reporter `R1` attached to the
slot `text` of the `say` block `P`, which holds the literal `hi`, and detached again. -/
theorem attach_then_detach_restores_slot_witness :
    lookup ((sayBesideReporterState.get 0).get rfl).inputs "text"
      = some { value := "hi", childId := none } ∧
    ((attachThenDetach sayBesideReporterState 1 0 "text").get 0).bind
        (fun b => lookup b.inputs "text")
      = some { value := "hi", childId := none } ∧
    ((attachThenDetach sayBesideReporterState 1 0 "text").get 1).map
        (fun b => (truthyOpt b.parentBlock, b.parentInput))
      = some (false, none) ∧
    (attachThenDetach sayBesideReporterState 1 0 "text").blocks
      = sayBesideReporterState.blocks ∧
    (∀ r, ((attachThenDetach sayBesideReporterState 1 0 "text").get r).map Block.view
      = (sayBesideReporterState.get r).map Block.view) ∧
    (∀ fuel fb lang indent,
      generateCodeFromBlock (attachThenDetach sayBesideReporterState 1 0 "text") fuel fb 0
          lang indent
        = generateCodeFromBlock sayBesideReporterState fuel fb 0 lang indent) :=
  ⟨rfl,
    attach_then_detach_restores_slot sayBesideReporterState 1 0 "text"
      ((sayBesideReporterState.get 0).get rfl) ((sayBesideReporterState.get 1).get rfl) "hi"
      (Option.some_get (rfl : (sayBesideReporterState.get 0).isSome = true)).symm rfl rfl
      (Option.some_get (rfl : (sayBesideReporterState.get 1).isSome = true)).symm rfl rfl⟩

/-! ## Dangling references on load -/

/-- C13: the load skips the dangling ids `ghost` and `phantom` of `danglingRecords`
and builds what the snapshot without them builds, but a dangling id that names a
member every plain object inherits is not skipped. With `constructor` listed in
`nestedIds` of `D` the load returns false and leaves `D` and `S` created and
unlinked, with the inherited member as the one entry of `nestedBlocks` of `D`, on
which a later `serializeWorkspace` throws; with `toString` as the `childId` of the
slot of `S` the load returns false after `S` was nested in `D`. -/
theorem dangling_inherited_name_aborts_load :
    (loadRecords danglingRecords).2 = true ∧
    (loadRecords danglingRecords).1.heap = (loadRecords (pruneDangling danglingRecords)).1.heap ∧
    (loadRecords danglingRecords).1.blocks
      = (loadRecords (pruneDangling danglingRecords)).1.blocks ∧
    (loadRecords danglingRecords).1.nestedIdsOf "D" = ["S"] ∧
    (loadRecords danglingRecords).1.slotChild "S" "text" = none ∧
    carriesId inheritedNameRecords "constructor" = false ∧
    (loadRecords inheritedNameRecords).2 = false ∧
    (loadRecords inheritedNameRecords).1.ids = ["D", "S"] ∧
    (loadRecords inheritedNameRecords).1.nestedIdsOf "D" = [] ∧
    (loadRecords inheritedNameRecords).1.parentFields "S" = some (none, none) ∧
    carriesId inheritedSlotRecords "toString" = false ∧
    (loadRecords inheritedSlotRecords).2 = false ∧
    (loadRecords inheritedSlotRecords).1.nestedIdsOf "D" = ["S"] ∧
    ((loadRecords inheritedNameRecords).1.byId "D").map (fun b =>
        b.nestedBlocks.map (fun nb => (loadRecords inheritedNameRecords).1.heap.get? nb))
      = some [some (HeapObj.inherited "constructor")] ∧
    serializeWorkspace (loadRecords inheritedNameRecords).1 = none := by
  refine ⟨?_, ?_, ?_, ?_, ?_, ?_, ?_, ?_, ?_, ?_, ?_, ?_, ?_, ?_, ?_⟩ <;> rfl

/-! ## Indentation of python code -/

/-- C21: for python, a default `repeat` container at the top level holding two `say`
blocks gives both children the indentation 4, but when that container is itself
nested, in `O`, its first child keeps the indentation 4 and only its second child
gets 8. The lines of the text for `O` come from `O`, `I`, `A`, `B`, `C`, whose
nesting depths are 0, 1, 2, 2, 1, and their indentations are 0, 4, 4, 8, 4: the
children `A` and `B` of `I` do not start at the same column. -/
theorem python_first_nested_child_keeps_outer_indent :
    (pythonFlatState.nestedIdsOf "I", pythonFlatState.parentFields "I")
      = (["A", "B"], some (none, none)) ∧
    generateCodeFromBlock pythonFlatState 5 [] 1 "python" ""
      = Except.ok ("for i in range(3):\n    print(1)\n    print(2)", []) ∧
    (pythonNestedState.ids, pythonNestedState.nestedIdsOf "O", pythonNestedState.nestedIdsOf "I")
      = (["O", "I", "A", "B", "C"], ["I", "C"], ["A", "B"]) ∧
    [0, 1, 2, 3, 4].map (nestingDepth pythonNestedState 5) = [0, 1, 2, 2, 1] ∧
    generateCodeFromBlock pythonNestedState 5 [] 0 "python" ""
      = Except.ok
          ("for i in range(2):\n    for i in range(3):\n    print(1)\n        print(2)\n    print(3)",
            []) ∧
    generateBtnOnclick 5 pythonNestedState "python"
      = generateCodeFromBlock pythonNestedState 5 [] 0 "python" "" ∧
    lineIndents
        "for i in range(2):\n    for i in range(3):\n    print(1)\n        print(2)\n    print(3)"
      = [0, 4, 4, 8, 4] := by
  refine ⟨?_, ?_, ?_, ?_, ?_, ?_, ?_⟩ <;> rfl

end BlockEditor
